import Mathlib

/-!
# Mars lander: mechanical simulation functions (`lander.cpp`)

A shallow embedding of `autopilot`, `numerical_dynamics` and
`initialize_simulation` from `Mars Lander/assignment 5/lander.cpp`.

The C++ `double` is idealised as an arbitrary linearly ordered field `K`
(exact arithmetic, no rounding): every definition is computable, so it runs
over `ℚ`, and every theorem holds over `ℝ` as well.  The square root used by
`vector3d::abs` is a parameter of the environment; the theorems that need it
assume only that it is the non-negative root at the points where it is
evaluated (`IsSqrtAt`).  Where the rounding of the `double` decides a
statement, the integrator is stated once more over an arbitrary arithmetic
(`Arith`) and run in `binary64`, the exact operations followed by the rounding
to 53 significant bits.

The global variables of the simulator are the fields of `State`; the `static`
local `previous_position` of `numerical_dynamics` is a field too, since it
survives from one call to the next.  The trajectory log written by
`autopilot` (`fout`) touches none of these variables and is left out.
-/

namespace MarsLander

/-! ## Vectors -/

/-- Modelled from the spec: the class `vector3d` of `lander.h`, which is not
among the sources; a 3D vector of planet-centred Cartesian components. -/
@[ext]
structure vector3d (K : Type) where
  x : K
  y : K
  z : K

namespace vector3d

variable {K : Type} [LinearOrderedField K]

instance : Zero (vector3d K) := ⟨⟨0, 0, 0⟩⟩

/-- Componentwise sum, `u + v`. -/
instance : Add (vector3d K) := ⟨fun u v => ⟨u.x + v.x, u.y + v.y, u.z + v.z⟩⟩

/-- Componentwise difference, `u - v`. -/
instance : Sub (vector3d K) := ⟨fun u v => ⟨u.x - v.x, u.y - v.y, u.z - v.z⟩⟩

/-- Unary minus, `-v`. -/
instance : Neg (vector3d K) := ⟨fun v => ⟨-v.x, -v.y, -v.z⟩⟩

/-- Vector times scalar, `v * a` (also written `a * v` in the source). -/
def scale (v : vector3d K) (a : K) : vector3d K := ⟨v.x * a, v.y * a, v.z * a⟩

/-- Vector divided by scalar, `v / a`.  The quotient is the exact one of the
field; for `a = 0` the field gives 0 where the `double` of the source gives an
infinity or a NaN. -/
def sdiv (v : vector3d K) (a : K) : vector3d K := ⟨v.x / a, v.y / a, v.z / a⟩

/-- Scalar product, `u * v`. -/
def dot (u v : vector3d K) : K := u.x * v.x + u.y * v.y + u.z * v.z

/-- Squared magnitude, `v.abs2()`. -/
def abs2 (v : vector3d K) : K := v.x * v.x + v.y * v.y + v.z * v.z

/-- Magnitude, `v.abs()`: the square root of `abs2`. -/
def abs (sqrt : K → K) (v : vector3d K) : K := sqrt v.abs2

/-- Modelled from the spec: `v.norm()`, the unit vector `unit(v) = v / |v|`. -/
def norm (sqrt : K → K) (v : vector3d K) : vector3d K := v.sdiv (v.abs sqrt)

end vector3d

/-- The value `r` is the non-negative square root of `x`. -/
def IsSqrt {K : Type} [LinearOrderedField K] (r x : K) : Prop := 0 ≤ r ∧ r * r = x

/-- The function `sqrt` returns the non-negative square root at the point `x`. -/
def IsSqrtAt {K : Type} [LinearOrderedField K] (sqrt : K → K) (x : K) : Prop :=
  IsSqrt (sqrt x) x

/-! ## Environment and state -/

/-- Modelled from the spec: `parachute_status_t` of `lander.h`. -/
inductive parachute_status_t where
  | NOT_DEPLOYED
  | DEPLOYED
  | LOST
  deriving DecidableEq, Repr

/-- Modelled from the spec: what `lander.cpp` takes from `lander.h` and from
the rest of the simulator, none of which is among the sources: the physical
constants, the library square root, the atmospheric density at a position, the
thrust vector in world coordinates (a function of throttle, orientation and
fuel) and the orientation chosen by the attitude stabilisation. -/
structure Env (K : Type) where
  sqrt : K → K
  MARS_RADIUS : K
  MARS_MASS : K
  GRAVITY : K
  LANDER_SIZE : K
  UNLOADED_LANDER_MASS : K
  FUEL_CAPACITY : K
  FUEL_DENSITY : K
  DRAG_COEF_CHUTE : K
  DRAG_COEF_LANDER : K
  EXOSPHERE : K
  atmospheric_density : vector3d K → K
  thrust_wrt_world : K → vector3d K → K → vector3d K
  attitude_stabilization : vector3d K → vector3d K → vector3d K

/-- The global variables read and written by `lander.cpp`, together with the
`static` local `previous_position` of `numerical_dynamics`. -/
structure State (K : Type) where
  position : vector3d K
  velocity : vector3d K
  orientation : vector3d K
  fuel : K
  throttle : K
  delta_t : K
  simulation_time : K
  parachute_status : parachute_status_t
  stabilized_attitude : Bool
  autopilot_enabled : Bool
  previous_position : vector3d K

section Defs

variable {K : Type} [LinearOrderedField K]

/-! ## `autopilot` -/

/-- The height-feedback gain, `#define Kh 0.04`. -/
def Kh (K : Type) [LinearOrderedField K] : K := 0.04

/-- The proportional gain, `#define Kp 1`. -/
def Kp (K : Type) [LinearOrderedField K] : K := 1

/-- The deadband fraction, `#define BIG_delta 0.1`. -/
def BIG_delta (K : Type) [LinearOrderedField K] : K := 0.1

/-- The altitude `h = position.abs() - MARS_RADIUS`. -/
def autopilot_h (env : Env K) (s : State K) : K :=
  s.position.abs env.sqrt - env.MARS_RADIUS

/-- The outward radial speed `velocity * position.norm()`. -/
def radial_speed (env : Env K) (s : State K) : K :=
  s.velocity.dot (s.position.norm env.sqrt)

/-- The error `- 0.5 - Kh * h - velocity * position.norm()`. -/
def autopilot_error (env : Env K) (s : State K) : K :=
  -0.5 - Kh K * autopilot_h env s - s.velocity.dot (s.position.norm env.sqrt)

/-- The raw command `pout = Kp * error`. -/
def autopilot_pout (env : Env K) (s : State K) : K :=
  Kp K * autopilot_error env s

/-- The throttle assigned by the three-way test on `pout`. -/
def throttle_of_pout (pout : K) : K :=
  if pout < -BIG_delta K then 0
  else if pout < 1 - BIG_delta K then BIG_delta K + pout
  else 1

/-- The procedure `autopilot`: it writes `throttle` and nothing else. -/
def autopilot (env : Env K) (s : State K) : State K :=
  { s with throttle := throttle_of_pout (autopilot_pout env s) }

/-! ## `numerical_dynamics` -/

/-- The global `Area = LANDER_SIZE*LANDER_SIZE*3.1416`. -/
def Area (env : Env K) : K := env.LANDER_SIZE * env.LANDER_SIZE * 3.1416

/-- The global `parachute_area = 3.1416 * (2*LANDER_SIZE)*(2*LANDER_SIZE)`. -/
def parachute_area (env : Env K) : K :=
  3.1416 * (2 * env.LANDER_SIZE) * (2 * env.LANDER_SIZE)

/-- The local `_mass = UNLOADED_LANDER_MASS + FUEL_CAPACITY*FUEL_DENSITY*fuel`. -/
def mass (env : Env K) (s : State K) : K :=
  env.UNLOADED_LANDER_MASS + env.FUEL_CAPACITY * env.FUEL_DENSITY * s.fuel

/-- The local `_thrust = thrust_wrt_world()`. -/
def thrust (env : Env K) (s : State K) : vector3d K :=
  env.thrust_wrt_world s.throttle s.orientation s.fuel

/-- The local `_density = atmospheric_density(position)`. -/
def density (env : Env K) (s : State K) : K := env.atmospheric_density s.position

/-- The drag of the lander body for a velocity `v` in air of density `rho`:
`v.norm() * (-0.5) * rho * DRAG_COEF_LANDER * Area * v.abs2()`. -/
def body_drag (env : Env K) (rho : K) (v : vector3d K) : vector3d K :=
  (((((v.norm env.sqrt).scale (-0.5)).scale rho).scale env.DRAG_COEF_LANDER).scale
    (Area env)).scale v.abs2

/-- The term added to the drag when the parachute is deployed:
`v * (-0.5) * rho * DRAG_COEF_CHUTE * parachute_area * v.abs()`. -/
def chute_drag (env : Env K) (rho : K) (v : vector3d K) : vector3d K :=
  ((((v.scale (-0.5)).scale rho).scale env.DRAG_COEF_CHUTE).scale
    (parachute_area env)).scale (v.abs env.sqrt)

/-- The local `_drag`: the body drag, plus the chute term when
`parachute_status == DEPLOYED`. -/
def drag (env : Env K) (s : State K) : vector3d K :=
  if s.parachute_status = parachute_status_t.DEPLOYED then
    body_drag env (density env s) s.velocity + chute_drag env (density env s) s.velocity
  else
    body_drag env (density env s) s.velocity

/-- The local
`_gravity = -position.norm() * MARS_MASS * GRAVITY * _mass / position.abs2()`. -/
def gravity (env : Env K) (s : State K) : vector3d K :=
  ((((-(s.position.norm env.sqrt)).scale env.MARS_MASS).scale env.GRAVITY).scale
    (mass env s)).sdiv s.position.abs2

/-- The local `_acceleration = (_thrust + _drag + _gravity) / _mass`. -/
def acceleration (env : Env K) (s : State K) : vector3d K :=
  (thrust env s + drag env s + gravity env s).sdiv (mass env s)

/-- The Euler update: `position += delta_t * velocity;`
`velocity += delta_t * _acceleration;`. -/
def euler_step (s : State K) (a : vector3d K) : State K :=
  { s with
    position := s.position + s.velocity.scale s.delta_t
    velocity := s.velocity + a.scale s.delta_t }

/-- The first-tick update of the Verlet scheme: `previous_position = position;`
followed by the Euler update. -/
def bootstrap_step (s : State K) (a : vector3d K) : State K :=
  { s with
    previous_position := s.position
    position := s.position + s.velocity.scale s.delta_t
    velocity := s.velocity + a.scale s.delta_t }

/-- The `new_position` of the Verlet update:
`position * 2 - previous_position + _acceleration * delta_t*delta_t`. -/
def verlet_new_position (s : State K) (a : vector3d K) : vector3d K :=
  s.position.scale 2 - s.previous_position + (a.scale s.delta_t).scale s.delta_t

/-- The Verlet update: `previous_position = position; position = new_position;`
`velocity = (position - previous_position)/delta_t;`, where the last line reads
the two variables just assigned.  The operations are the exact ones of the
field; `verlet_step_in` below is the same update over an arbitrary arithmetic,
and over `binary64` the difference of two nearby positions is rounded. -/
def verlet_step (s : State K) (a : vector3d K) : State K :=
  { s with
    previous_position := s.position
    position := verlet_new_position s a
    velocity := (verlet_new_position s a - s.position).sdiv s.delta_t }

/-- The three updates between which `numerical_dynamics` chooses. -/
inductive Branch where
  | Euler
  | Bootstrap
  | SteadyState
  deriving DecidableEq, Repr

/-- The update chosen for a given `INTERGRATION_METHOD` (0 Euler, otherwise
Verlet): `if(INTERGRATION_METHOD == 0) ... else if(simulation_time == 0) ... else ...`. -/
def branch_taken (method : Nat) (s : State K) : Branch :=
  if method = 0 then Branch.Euler
  else if s.simulation_time = 0 then Branch.Bootstrap
  else Branch.SteadyState

/-- The integration of one step with the acceleration `a`. -/
def integrate (method : Nat) (s : State K) (a : vector3d K) : State K :=
  match branch_taken method s with
  | Branch.Euler => euler_step s a
  | Branch.Bootstrap => bootstrap_step s a
  | Branch.SteadyState => verlet_step s a

/-- The call `if (autopilot_enabled) autopilot();`. -/
def apply_autopilot (env : Env K) (s : State K) : State K :=
  if s.autopilot_enabled then autopilot env s else s

/-- The call `if (stabilized_attitude) attitude_stabilization();`, which sets
the orientation. -/
def apply_stabilization (env : Env K) (s : State K) : State K :=
  if s.stabilized_attitude then
    { s with orientation := env.attitude_stabilization s.position s.orientation }
  else s

/-- The procedure `numerical_dynamics` compiled with the given
`INTERGRATION_METHOD`. -/
def numerical_dynamics_with (method : Nat) (env : Env K) (s : State K) : State K :=
  apply_stabilization env (apply_autopilot env (integrate method s (acceleration env s)))

/-- The setting `#define INTERGRATION_METHOD 1`. -/
def INTERGRATION_METHOD : Nat := 1

/-- The procedure `numerical_dynamics` as compiled. -/
def numerical_dynamics (env : Env K) (s : State K) : State K :=
  numerical_dynamics_with INTERGRATION_METHOD env s

/-! ## The throttle law and the guarded step as the specification words them -/

/-- The throttle law in the words of the specification: the raw command
shifted by the deadband and clamped to `[0, 1]`, `max(0, min(1, delta + p))`. -/
def shifted_clamp (p : K) : K := max 0 (min 1 (BIG_delta K + p))

/-- The step in the words of the specification: a fatal precondition violation
(`none`) when the position magnitude or the effective mass is zero, and the
new state otherwise. -/
def guarded_numerical_dynamics (env : Env K) (s : State K) : Option (State K) :=
  if s.position.abs env.sqrt = 0 ∨ mass env s = 0 then none
  else some (numerical_dynamics env s)

/-! ## `initialize_simulation` -/

/-- The strings assigned to `scenario_description[0..9]`, whatever the
scenario. -/
def scenario_description : List String :=
  ["circular orbit", "descent from 10km",
    "elliptical orbit, thrust changes orbital plane",
    "polar launch at escape velocity (but drag prevents escape)",
    "elliptical orbit that clips the atmosphere and decays",
    "descent from 200km", "", "", "", ""]

/-- The procedure `initialize_simulation`: the `switch (scenario)` on the
global `int scenario`.  The cases 0 to 5 assign the pose, the time step and
the three flags; the cases 6 to 9 are a bare `break`, and there is no
`default`. -/
def initialize_simulation (env : Env K) (scenario : Int) (s : State K) : State K :=
  if scenario = 0 then
    { s with
      position := ⟨1.2 * env.MARS_RADIUS, 0.0, 0.0⟩
      velocity := ⟨0.0, -3247.087385863725, 0.0⟩
      orientation := ⟨0.0, 90.0, 0.0⟩
      delta_t := 0.1
      parachute_status := parachute_status_t.NOT_DEPLOYED
      stabilized_attitude := false
      autopilot_enabled := false }
  else if scenario = 1 then
    { s with
      position := ⟨0.0, -(env.MARS_RADIUS + 10000.0), 0.0⟩
      velocity := ⟨0.0, 0.0, 0.0⟩
      orientation := ⟨0.0, 0.0, 90.0⟩
      delta_t := 0.1
      parachute_status := parachute_status_t.NOT_DEPLOYED
      stabilized_attitude := true
      autopilot_enabled := false }
  else if scenario = 2 then
    { s with
      position := ⟨0.0, 0.0, 1.2 * env.MARS_RADIUS⟩
      velocity := ⟨3500.0, 0.0, 0.0⟩
      orientation := ⟨0.0, 0.0, 90.0⟩
      delta_t := 0.1
      parachute_status := parachute_status_t.NOT_DEPLOYED
      stabilized_attitude := false
      autopilot_enabled := false }
  else if scenario = 3 then
    { s with
      position := ⟨0.0, 0.0, env.MARS_RADIUS + env.LANDER_SIZE / 2.0⟩
      velocity := ⟨0.0, 0.0, 5027.0⟩
      orientation := ⟨0.0, 0.0, 0.0⟩
      delta_t := 0.1
      parachute_status := parachute_status_t.NOT_DEPLOYED
      stabilized_attitude := false
      autopilot_enabled := false }
  else if scenario = 4 then
    { s with
      position := ⟨0.0, 0.0, env.MARS_RADIUS + 100000.0⟩
      velocity := ⟨4000.0, 0.0, 0.0⟩
      orientation := ⟨0.0, 90.0, 0.0⟩
      delta_t := 0.1
      parachute_status := parachute_status_t.NOT_DEPLOYED
      stabilized_attitude := false
      autopilot_enabled := false }
  else if scenario = 5 then
    { s with
      position := ⟨0.0, -(env.MARS_RADIUS + env.EXOSPHERE), 0.0⟩
      velocity := ⟨0.0, 0.0, 0.0⟩
      orientation := ⟨0.0, 0.0, 90.0⟩
      delta_t := 0.1
      parachute_status := parachute_status_t.NOT_DEPLOYED
      stabilized_attitude := true
      autopilot_enabled := false }
  else s

end Defs

/-! ## The integrator over an arbitrary arithmetic, and `binary64`

The updates of `numerical_dynamics` once more, with the four operations on
scalars taken from a record instead of the field: what is proved for every
such record holds for the rounded operations of the `double` as well. -/

/-- The four operations on scalars that the integrator uses. -/
structure Arith (K : Type) where
  add : K → K → K
  sub : K → K → K
  mul : K → K → K
  div : K → K → K

section ArithDefs

variable {K : Type} [LinearOrderedField K]

/-- The exact operations of the field. -/
def exactArith : Arith K where
  add := fun x y => x + y
  sub := fun x y => x - y
  mul := fun x y => x * y
  div := fun x y => x / y

/-- Componentwise sum `u + v` in the arithmetic `A`. -/
def vector3d.add_in (A : Arith K) (u v : vector3d K) : vector3d K :=
  ⟨A.add u.x v.x, A.add u.y v.y, A.add u.z v.z⟩

/-- Componentwise difference `u - v` in the arithmetic `A`. -/
def vector3d.sub_in (A : Arith K) (u v : vector3d K) : vector3d K :=
  ⟨A.sub u.x v.x, A.sub u.y v.y, A.sub u.z v.z⟩

/-- Vector times scalar `v * a` in the arithmetic `A`. -/
def vector3d.scale_in (A : Arith K) (v : vector3d K) (a : K) : vector3d K :=
  ⟨A.mul v.x a, A.mul v.y a, A.mul v.z a⟩

/-- Vector divided by scalar `v / a` in the arithmetic `A`. -/
def vector3d.sdiv_in (A : Arith K) (v : vector3d K) (a : K) : vector3d K :=
  ⟨A.div v.x a, A.div v.y a, A.div v.z a⟩

/-- The first-tick update in the arithmetic `A`: `previous_position = position;`
`position += delta_t * velocity; velocity += delta_t * _acceleration;`. -/
def bootstrap_step_in (A : Arith K) (s : State K) (a : vector3d K) : State K :=
  { s with
    previous_position := s.position
    position := s.position.add_in A (s.velocity.scale_in A s.delta_t)
    velocity := s.velocity.add_in A (a.scale_in A s.delta_t) }

/-- The `new_position` of the Verlet update in the arithmetic `A`:
`position * 2 - previous_position + _acceleration * delta_t*delta_t`. -/
def verlet_new_position_in (A : Arith K) (s : State K) (a : vector3d K) : vector3d K :=
  ((s.position.scale_in A 2).sub_in A s.previous_position).add_in A
    ((a.scale_in A s.delta_t).scale_in A s.delta_t)

/-- The Verlet update in the arithmetic `A`: `previous_position = position;`
`position = new_position; velocity = (position - previous_position)/delta_t;`. -/
def verlet_step_in (A : Arith K) (s : State K) (a : vector3d K) : State K :=
  { s with
    previous_position := s.position
    position := verlet_new_position_in A s a
    velocity := ((verlet_new_position_in A s a).sub_in A s.position).sdiv_in A s.delta_t }

/-- The Verlet-mode integration of one step in the arithmetic `A`: the first
tick when `simulation_time == 0`, the Verlet update otherwise. -/
def verlet_integrate_in (A : Arith K) (s : State K) (a : vector3d K) : State K :=
  if s.simulation_time = 0 then bootstrap_step_in A s a else verlet_step_in A s a

end ArithDefs

/-- The integer nearest to `x`, the even one of the two when `x` lies half way. -/
def round_half_even (x : ℚ) : Int :=
  if Int.fract x = 1 / 2 then (if ⌊x⌋ % 2 = 0 then ⌊x⌋ else ⌊x⌋ + 1) else ⌊x + 1 / 2⌋

/-- The `double` nearest to `x` (IEEE 754 binary64, round to nearest, ties to
even): 53 significant bits.  Overflow and subnormal numbers are left out; the
values rounded below lie between `2^-6` and `2^23` in magnitude. -/
def round64 (x : ℚ) : ℚ :=
  if x = 0 then 0
  else (round_half_even (x / 2 ^ (Int.log 2 |x| - 52)) : ℚ) * 2 ^ (Int.log 2 |x| - 52)

/-- The arithmetic of the `double`: every operation is the exact one followed
by the rounding. -/
def binary64 : Arith ℚ where
  add := fun x y => round64 (x + y)
  sub := fun x y => round64 (x - y)
  mul := fun x y => round64 (x * y)
  div := fun x y => round64 (x / y)

/-- The `double` written `0.1` in the source. -/
def double_0_1 : ℚ := 3602879701896397 / 36028797018963968

/-- The `double` written `0.3`. -/
def double_0_3 : ℚ := 5404319552844595 / 18014398509481984

/-- The `double` written `-3386000.03`. -/
def double_m3386000_03 : ℚ := -7271379696552509 / 2147483648

/-- A lander on the surface at time `t` whose scalars are `double`s: position
`-3386000` and velocity `0.3` along `y`, time step `0.1`. -/
def doubleSurfaceState (t : ℚ) : State ℚ where
  position := ⟨0, -3386000, 0⟩
  velocity := ⟨0, double_0_3, 0⟩
  orientation := ⟨0, -1, 0⟩
  fuel := 1
  throttle := 0
  delta_t := double_0_1
  simulation_time := t
  parachute_status := parachute_status_t.NOT_DEPLOYED
  stabilized_attitude := false
  autopilot_enabled := false
  previous_position := ⟨0, -3386000, 0⟩

/-- A lander on the surface at time `0.1` whose previous position is
`-3386000.03` along `y` and whose velocity is the `double` computed as
`(position - previous_position)/delta_t`. -/
def doubleCruiseState : State ℚ :=
  { doubleSurfaceState double_0_1 with
    previous_position := ⟨0, double_m3386000_03, 0⟩
    velocity := ((⟨0, -3386000, 0⟩ : vector3d ℚ).sub_in binary64
      ⟨0, double_m3386000_03, 0⟩).sdiv_in binary64 double_0_1 }

/-! ## A sample environment and sample states over `ℚ` -/

/-- The non-negative rationals offered as square roots by `sampleSqrt`. -/
def sampleRoots : List ℚ :=
  [10, 20, 3386000, 4000000, 50.2656, 201.0624, 6.2832, 25.1328, 535.50825]

/-- A square root on `ℚ` by lookup: the first listed root whose square is `x`,
and 0 when there is none. -/
def sampleSqrt (x : ℚ) : ℚ := (sampleRoots.find? (fun r => r * r = x)).getD 0

/-- A sample environment: constants of the order of those of Mars and of a
small lander, a thin uniform atmosphere, and a thrust along the orientation
vector in proportion to the throttle. -/
def sampleEnv : Env ℚ where
  sqrt := sampleSqrt
  MARS_RADIUS := 3386000
  MARS_MASS := 6.42e23
  GRAVITY := 6.673e-11
  LANDER_SIZE := 2
  UNLOADED_LANDER_MASS := 100
  FUEL_CAPACITY := 100
  FUEL_DENSITY := 1
  DRAG_COEF_CHUTE := 2
  DRAG_COEF_LANDER := 1
  EXOSPHERE := 200000
  atmospheric_density := fun _ => 0.01
  thrust_wrt_world := fun throttle orientation _ => orientation.scale (throttle * 1000)
  attitude_stabilization := fun _ orientation => orientation

/-- A lander on the surface, below the origin on the `y` axis, moving with the
velocity `v`, at time `t`. -/
def surfaceState (v : vector3d ℚ) (t : ℚ) : State ℚ where
  position := ⟨0, -3386000, 0⟩
  velocity := v
  orientation := ⟨0, -1, 0⟩
  fuel := 1
  throttle := 0
  delta_t := 0.1
  simulation_time := t
  parachute_status := parachute_status_t.DEPLOYED
  stabilized_attitude := false
  autopilot_enabled := true
  previous_position := ⟨0, -3386000, 0⟩

/-- A lander 614 km above the surface, below the origin on the `y` axis, at
rest, with full tanks and the parachute stowed. -/
def highState : State ℚ where
  position := ⟨0, -4000000, 0⟩
  velocity := ⟨0, 0, 0⟩
  orientation := ⟨0, -1, 0⟩
  fuel := 1
  throttle := 0
  delta_t := 0.1
  simulation_time := 0
  parachute_status := parachute_status_t.NOT_DEPLOYED
  stabilized_attitude := true
  autopilot_enabled := false
  previous_position := ⟨0, 0, 0⟩

/-- A lander at the centre of the planet, moving at 0.3 along `y`, at time 0. -/
def centreState : State ℚ where
  position := ⟨0, 0, 0⟩
  velocity := ⟨0, 0.3, 0⟩
  orientation := ⟨0, -1, 0⟩
  fuel := 1
  throttle := 0
  delta_t := 0.1
  simulation_time := 0
  parachute_status := parachute_status_t.NOT_DEPLOYED
  stabilized_attitude := false
  autopilot_enabled := false
  previous_position := ⟨0, 0, 0⟩

/-- A surface state whose fuel fraction -1 makes the effective mass of the
sample lander zero. -/
def masslessState : State ℚ :=
  { surfaceState ⟨0, 0.3, 0⟩ 0 with fuel := -1 }

/-- A surface state at time 0.1 whose velocity 0.3 along `y` is the
displacement of the last step divided by the time step. -/
def cruiseState : State ℚ :=
  { surfaceState ⟨0, 0.3, 0⟩ 0.1 with previous_position := ⟨0, -3386000.03, 0⟩ }

/-! ## Vector algebra -/

namespace vector3d

variable {K : Type} [LinearOrderedField K]

@[simp] theorem zero_x : (0 : vector3d K).x = 0 := rfl
@[simp] theorem zero_y : (0 : vector3d K).y = 0 := rfl
@[simp] theorem zero_z : (0 : vector3d K).z = 0 := rfl
@[simp] theorem add_x (u v : vector3d K) : (u + v).x = u.x + v.x := rfl
@[simp] theorem add_y (u v : vector3d K) : (u + v).y = u.y + v.y := rfl
@[simp] theorem add_z (u v : vector3d K) : (u + v).z = u.z + v.z := rfl
@[simp] theorem sub_x (u v : vector3d K) : (u - v).x = u.x - v.x := rfl
@[simp] theorem sub_y (u v : vector3d K) : (u - v).y = u.y - v.y := rfl
@[simp] theorem sub_z (u v : vector3d K) : (u - v).z = u.z - v.z := rfl
@[simp] theorem neg_x (v : vector3d K) : (-v).x = -v.x := rfl
@[simp] theorem neg_y (v : vector3d K) : (-v).y = -v.y := rfl
@[simp] theorem neg_z (v : vector3d K) : (-v).z = -v.z := rfl
@[simp] theorem scale_x (v : vector3d K) (a : K) : (v.scale a).x = v.x * a := rfl
@[simp] theorem scale_y (v : vector3d K) (a : K) : (v.scale a).y = v.y * a := rfl
@[simp] theorem scale_z (v : vector3d K) (a : K) : (v.scale a).z = v.z * a := rfl
@[simp] theorem sdiv_x (v : vector3d K) (a : K) : (v.sdiv a).x = v.x / a := rfl
@[simp] theorem sdiv_y (v : vector3d K) (a : K) : (v.sdiv a).y = v.y / a := rfl
@[simp] theorem sdiv_z (v : vector3d K) (a : K) : (v.sdiv a).z = v.z / a := rfl

end vector3d

section Autopilot

variable {K : Type} [LinearOrderedField K]

theorem BIG_delta_pos : (0 : K) < BIG_delta K := by
  unfold BIG_delta; norm_num

theorem BIG_delta_lt_one : BIG_delta K < 1 := by
  unfold BIG_delta; norm_num

/-- C1: the throttle written by `autopilot` for the raw command
`p = Kp * error`, with `Kp = 1` and `delta = BIG_delta = 0.1`: it is 0 when
`p < -delta`, otherwise `delta + p` when `p < 1 - delta`, otherwise 1; so the
error -0.2 gives 0, the error 0 gives 0.1 and the error 1 gives 1. -/
theorem autopilot_throttle_cases (env : Env K) (s : State K) :
    Kp K = 1 ∧ BIG_delta K = 0.1 ∧
    (autopilot_pout env s < -BIG_delta K → (autopilot env s).throttle = 0) ∧
    (¬ autopilot_pout env s < -BIG_delta K → autopilot_pout env s < 1 - BIG_delta K →
      (autopilot env s).throttle = BIG_delta K + autopilot_pout env s) ∧
    (¬ autopilot_pout env s < -BIG_delta K → ¬ autopilot_pout env s < 1 - BIG_delta K →
      (autopilot env s).throttle = 1) ∧
    (autopilot_error env s = -0.2 → (autopilot env s).throttle = 0) ∧
    (autopilot_error env s = 0 → (autopilot env s).throttle = 0.1) ∧
    (autopilot_error env s = 1 → (autopilot env s).throttle = 1) := by
  refine ⟨rfl, rfl, ?_, ?_, ?_, ?_, ?_, ?_⟩
  · intro h
    simp [autopilot, throttle_of_pout, h]
  · intro h1 h2
    simp [autopilot, throttle_of_pout, h1, h2]
  · intro h1 h2
    simp [autopilot, throttle_of_pout, h1, h2]
  · intro h
    simp only [autopilot, throttle_of_pout, autopilot_pout, h, Kp, BIG_delta]
    norm_num
  · intro h
    simp only [autopilot, throttle_of_pout, autopilot_pout, h, Kp, BIG_delta]
    norm_num
  · intro h
    simp only [autopilot, throttle_of_pout, autopilot_pout, h, Kp, BIG_delta]
    norm_num

/-- C2: whatever the position and the velocity, the throttle written by
`autopilot` lies between 0 and 1. -/
theorem autopilot_throttle_range (env : Env K) (s : State K) :
    0 ≤ (autopilot env s).throttle ∧ (autopilot env s).throttle ≤ 1 := by
  have hd0 : (0 : K) < BIG_delta K := BIG_delta_pos
  have hd1 : BIG_delta K < 1 := BIG_delta_lt_one
  simp only [autopilot, throttle_of_pout]
  split_ifs with h1 h2
  · exact ⟨le_refl _, zero_le_one⟩
  · constructor <;> linarith
  · exact ⟨zero_le_one, le_refl _⟩

/-- C3: `autopilot` writes the throttle computed from the altitude
`h = |position| - MARS_RADIUS`, the error
`e = -0.5 - Kh*h - velocity . unit(position)` with `Kh = 0.04` and the raw
command `p = Kp*e` with `Kp = 1`; the error vanishes exactly when the outward
radial speed is `-(0.5 + Kh*h)`, which is -0.5 at zero altitude, and the
throttle written is then the deadband 0.1; while `-0.1 <= e < 0.9` the throttle
written is `-0.4 - Kh*h - velocity . unit(position)`. -/
theorem autopilot_error_law (env : Env K) (s : State K) :
    (autopilot env s).throttle =
      throttle_of_pout
        (1 * (-0.5 - 0.04 * (s.position.abs env.sqrt - env.MARS_RADIUS)
          - s.velocity.dot (s.position.sdiv (s.position.abs env.sqrt)))) ∧
    autopilot_h env s = s.position.abs env.sqrt - env.MARS_RADIUS ∧
    autopilot_error env s =
      -0.5 - 0.04 * autopilot_h env s
        - s.velocity.dot (s.position.sdiv (s.position.abs env.sqrt)) ∧
    autopilot_pout env s = 1 * autopilot_error env s ∧
    (autopilot_error env s = 0 ↔
      radial_speed env s = -(0.5 + 0.04 * autopilot_h env s)) ∧
    (autopilot_h env s = 0 → (autopilot_error env s = 0 ↔ radial_speed env s = -0.5)) ∧
    (radial_speed env s = -(0.5 + 0.04 * autopilot_h env s) →
      (autopilot env s).throttle = 0.1) ∧
    (-0.1 ≤ autopilot_error env s → autopilot_error env s < 0.9 →
      (autopilot env s).throttle =
        -0.4 - 0.04 * autopilot_h env s - radial_speed env s) := by
  have herr : autopilot_error env s =
      -0.5 - 0.04 * autopilot_h env s - radial_speed env s := rfl
  have hband : -0.1 ≤ autopilot_error env s → autopilot_error env s < 0.9 →
      (autopilot env s).throttle = 0.1 + autopilot_error env s := by
    intro h1 h2
    simp only [autopilot, throttle_of_pout, autopilot_pout, Kp, BIG_delta, one_mul]
    rw [if_neg (by linarith), if_pos (by linarith)]
  refine ⟨rfl, rfl, rfl, rfl, ?_, ?_, ?_, ?_⟩
  · rw [herr]
    constructor <;> intro h <;> linarith
  · intro h0
    rw [herr, h0]
    constructor <;> intro h <;> linarith
  · intro hr
    have h0 : autopilot_error env s = 0 := by rw [herr, hr]; ring
    rw [hband (by rw [h0]; norm_num) (by rw [h0]; norm_num), h0]
    norm_num
  · intro h1 h2
    rw [hband h1 h2, herr]
    ring

/-- Witness for C3: on the surface a lander sinking at 0.5 has the outward
radial speed -0.5 at the altitude 0, and `autopilot` writes the throttle 0.1. -/
theorem autopilot_error_law_witness :
    autopilot_h sampleEnv (surfaceState ⟨0, 0.5, 0⟩ 0) = 0 ∧
    radial_speed sampleEnv (surfaceState ⟨0, 0.5, 0⟩ 0) = -0.5 ∧
    (autopilot sampleEnv (surfaceState ⟨0, 0.5, 0⟩ 0)).throttle = 0.1 := by
  have hh : autopilot_h sampleEnv (surfaceState ⟨0, 0.5, 0⟩ 0) = 0 := by
    norm_num [autopilot_h, surfaceState, sampleEnv, vector3d.abs, vector3d.abs2,
      sampleSqrt, sampleRoots, List.find?]
  have hr : radial_speed sampleEnv (surfaceState ⟨0, 0.5, 0⟩ 0) = -0.5 := by
    norm_num [radial_speed, surfaceState, sampleEnv, vector3d.abs, vector3d.abs2,
      vector3d.norm, vector3d.dot, sampleSqrt, sampleRoots, List.find?]
  refine ⟨hh, hr, ?_⟩
  apply (autopilot_error_law sampleEnv (surfaceState ⟨0, 0.5, 0⟩ 0)).2.2.2.2.2.2.1
  rw [hr, hh]
  norm_num

/-- A surface state whose outward radial speed is -0.3 has the error -0.2. -/
theorem surfaceState_error :
    autopilot_error sampleEnv (surfaceState ⟨0, 0.3, 0⟩ 0) = -0.2 := by
  norm_num [autopilot_error, autopilot_h, Kh, surfaceState, sampleEnv, vector3d.abs,
    vector3d.abs2, vector3d.norm, vector3d.dot, sampleSqrt, sampleRoots, List.find?]

/-- Witness for C1: on the surface with the outward radial speed -0.3 the
error is -0.2 and the throttle written is 0. -/
theorem autopilot_throttle_cases_witness :
    autopilot_error sampleEnv (surfaceState ⟨0, 0.3, 0⟩ 0) = -0.2 ∧
    (autopilot sampleEnv (surfaceState ⟨0, 0.3, 0⟩ 0)).throttle = 0 :=
  ⟨surfaceState_error,
    (autopilot_throttle_cases sampleEnv (surfaceState ⟨0, 0.3, 0⟩ 0)).2.2.2.2.2.1
      surfaceState_error⟩

end Autopilot

/-! ## The integrator -/

section Stabilization

theorem apply_stabilization_position {K : Type} (env : Env K) (s : State K) :
    (apply_stabilization env s).position = s.position := by
  unfold apply_stabilization; split_ifs <;> rfl

theorem apply_stabilization_velocity {K : Type} (env : Env K) (s : State K) :
    (apply_stabilization env s).velocity = s.velocity := by
  unfold apply_stabilization; split_ifs <;> rfl

theorem apply_stabilization_previous_position {K : Type} (env : Env K) (s : State K) :
    (apply_stabilization env s).previous_position = s.previous_position := by
  unfold apply_stabilization; split_ifs <;> rfl

theorem apply_stabilization_simulation_time {K : Type} (env : Env K) (s : State K) :
    (apply_stabilization env s).simulation_time = s.simulation_time := by
  unfold apply_stabilization; split_ifs <;> rfl

theorem apply_stabilization_throttle {K : Type} (env : Env K) (s : State K) :
    (apply_stabilization env s).throttle = s.throttle := by
  unfold apply_stabilization; split_ifs <;> rfl

end Stabilization

section Integrator

variable {K : Type} [LinearOrderedField K]

theorem apply_autopilot_position (env : Env K) (s : State K) :
    (apply_autopilot env s).position = s.position := by
  unfold apply_autopilot autopilot; split_ifs <;> rfl

theorem apply_autopilot_velocity (env : Env K) (s : State K) :
    (apply_autopilot env s).velocity = s.velocity := by
  unfold apply_autopilot autopilot; split_ifs <;> rfl

theorem apply_autopilot_previous_position (env : Env K) (s : State K) :
    (apply_autopilot env s).previous_position = s.previous_position := by
  unfold apply_autopilot autopilot; split_ifs <;> rfl

theorem apply_autopilot_simulation_time (env : Env K) (s : State K) :
    (apply_autopilot env s).simulation_time = s.simulation_time := by
  unfold apply_autopilot autopilot; split_ifs <;> rfl

/-- The position left by `numerical_dynamics` is the one left by the
integration. -/
theorem numerical_dynamics_with_position (m : Nat) (env : Env K) (s : State K) :
    (numerical_dynamics_with m env s).position =
      (integrate m s (acceleration env s)).position := by
  unfold numerical_dynamics_with
  rw [apply_stabilization_position, apply_autopilot_position]

/-- The velocity left by `numerical_dynamics` is the one left by the
integration. -/
theorem numerical_dynamics_with_velocity (m : Nat) (env : Env K) (s : State K) :
    (numerical_dynamics_with m env s).velocity =
      (integrate m s (acceleration env s)).velocity := by
  unfold numerical_dynamics_with
  rw [apply_stabilization_velocity, apply_autopilot_velocity]

/-- The previous position left by `numerical_dynamics` is the one left by the
integration. -/
theorem numerical_dynamics_with_previous_position (m : Nat) (env : Env K) (s : State K) :
    (numerical_dynamics_with m env s).previous_position =
      (integrate m s (acceleration env s)).previous_position := by
  unfold numerical_dynamics_with
  rw [apply_stabilization_previous_position, apply_autopilot_previous_position]

/-- No update of the integration writes the clock. -/
theorem integrate_simulation_time (m : Nat) (s : State K) (a : vector3d K) :
    (integrate m s a).simulation_time = s.simulation_time := by
  unfold integrate
  cases branch_taken m s <;> rfl

/-- The procedure `numerical_dynamics` does not write the clock. -/
theorem numerical_dynamics_simulation_time (env : Env K) (s : State K) :
    (numerical_dynamics env s).simulation_time = s.simulation_time := by
  unfold numerical_dynamics numerical_dynamics_with
  rw [apply_stabilization_simulation_time, apply_autopilot_simulation_time,
    integrate_simulation_time]

theorem branch_taken_of_time_ne_zero (s : State K) (ht : s.simulation_time ≠ 0) :
    branch_taken INTERGRATION_METHOD s = Branch.SteadyState := by
  simp [branch_taken, INTERGRATION_METHOD, ht]

theorem branch_taken_of_time_eq_zero (s : State K) (ht : s.simulation_time = 0) :
    branch_taken INTERGRATION_METHOD s = Branch.Bootstrap := by
  simp [branch_taken, INTERGRATION_METHOD, ht]

theorem integrate_of_time_ne_zero (s : State K) (a : vector3d K)
    (ht : s.simulation_time ≠ 0) :
    integrate INTERGRATION_METHOD s a = verlet_step s a := by
  unfold integrate
  rw [branch_taken_of_time_ne_zero s ht]

theorem integrate_of_time_eq_zero (s : State K) (a : vector3d K)
    (ht : s.simulation_time = 0) :
    integrate INTERGRATION_METHOD s a = bootstrap_step s a := by
  unfold integrate
  rw [branch_taken_of_time_eq_zero s ht]

/-- The velocity left by the Steady-state call for a surface state falling
outwards at 10. -/
theorem sample_step_velocity_ten :
    (numerical_dynamics sampleEnv (surfaceState ⟨0, 10, 0⟩ 0.1)).velocity.y =
      1237468786593 / 3582811250000 := by
  unfold numerical_dynamics
  rw [numerical_dynamics_with_velocity,
    integrate_of_time_ne_zero _ _ (by norm_num [surfaceState])]
  norm_num [verlet_step, verlet_new_position, acceleration, thrust, drag, density,
    body_drag, chute_drag, gravity, mass, Area, parachute_area, surfaceState, sampleEnv,
    vector3d.norm, vector3d.abs, vector3d.abs2, sampleSqrt, sampleRoots, List.find?]

/-- The velocity left by the Steady-state call for a surface state falling
outwards at 20. -/
theorem sample_step_velocity_twenty :
    (numerical_dynamics sampleEnv (surfaceState ⟨0, 20, 0⟩ 0.1)).velocity.y =
      233390817843 / 895702812500 := by
  unfold numerical_dynamics
  rw [numerical_dynamics_with_velocity,
    integrate_of_time_ne_zero _ _ (by norm_num [surfaceState])]
  norm_num [verlet_step, verlet_new_position, acceleration, thrust, drag, density,
    body_drag, chute_drag, gravity, mass, Area, parachute_area, surfaceState, sampleEnv,
    vector3d.norm, vector3d.abs, vector3d.abs2, sampleSqrt, sampleRoots, List.find?]

/-- Counterexample to C4 as stated: two sample states at time 0.1 that differ
only in the velocity held before the step (10 and 20 along `y`) are left with
different velocities by `numerical_dynamics`, because the acceleration of the
step reads the old velocity through the drag. -/
theorem old_velocity_enters_through_drag :
    surfaceState ⟨0, 20, 0⟩ 0.1 =
      { surfaceState ⟨0, 10, 0⟩ 0.1 with velocity := ⟨0, 20, 0⟩ } ∧
    (surfaceState ⟨0, 10, 0⟩ 0.1).simulation_time ≠ 0 ∧
    (surfaceState ⟨0, 10, 0⟩ 0.1).delta_t ≠ 0 ∧
    (numerical_dynamics sampleEnv (surfaceState ⟨0, 10, 0⟩ 0.1)).velocity ≠
      (numerical_dynamics sampleEnv (surfaceState ⟨0, 20, 0⟩ 0.1)).velocity := by
  refine ⟨rfl, by norm_num [surfaceState], by norm_num [surfaceState], ?_⟩
  intro h
  have hy := congrArg vector3d.y h
  rw [sample_step_velocity_ten, sample_step_velocity_twenty] at hy
  norm_num at hy

/-- C4 (amended): in a call with `simulation_time != 0` and `delta_t != 0` the
Verlet update of `numerical_dynamics` leaves the position
`position*2 - previous_position + acceleration*delta_t*delta_t`, the previous
position equal to the position held before the step, and the velocity
`(new_position - position_before_step)/delta_t`.  The velocity held before
the step enters only through the acceleration: for a given acceleration the
update leaves the same velocity whatever velocity was held before, and two
states that differ only in velocity and have the same acceleration are left
with the same velocity. -/
theorem verlet_branch_step (env : Env K) (s : State K)
    (ht : s.simulation_time ≠ 0) (_hdt : s.delta_t ≠ 0) :
    (numerical_dynamics env s).position =
      s.position.scale 2 - s.previous_position
        + ((acceleration env s).scale s.delta_t).scale s.delta_t ∧
    (numerical_dynamics env s).previous_position = s.position ∧
    (numerical_dynamics env s).velocity =
      ((numerical_dynamics env s).position - s.position).sdiv s.delta_t ∧
    (∀ v a : vector3d K,
      (integrate INTERGRATION_METHOD { s with velocity := v } a).velocity =
        (integrate INTERGRATION_METHOD s a).velocity) ∧
    (∀ v : vector3d K, acceleration env { s with velocity := v } = acceleration env s →
      (numerical_dynamics env { s with velocity := v }).velocity =
        (numerical_dynamics env s).velocity) := by
  have hp : (numerical_dynamics env s).position =
      verlet_new_position s (acceleration env s) := by
    unfold numerical_dynamics
    rw [numerical_dynamics_with_position, integrate_of_time_ne_zero s _ ht]
    rfl
  have hv : (numerical_dynamics env s).velocity =
      (verlet_new_position s (acceleration env s) - s.position).sdiv s.delta_t := by
    unfold numerical_dynamics
    rw [numerical_dynamics_with_velocity, integrate_of_time_ne_zero s _ ht]
    rfl
  refine ⟨?_, ?_, ?_, ?_, ?_⟩
  · rw [hp]
    rfl
  · unfold numerical_dynamics
    rw [numerical_dynamics_with_previous_position, integrate_of_time_ne_zero s _ ht]
    rfl
  · rw [hv, hp]
  · intro v a
    rw [integrate_of_time_ne_zero s a ht,
      integrate_of_time_ne_zero { s with velocity := v } a ht]
    rfl
  · intro v hacc
    rw [hv]
    unfold numerical_dynamics
    rw [numerical_dynamics_with_velocity,
      integrate_of_time_ne_zero { s with velocity := v } _ ht, hacc]
    rfl

/-- Witness for C4 (amended): the step of a surface state at time 0.1 with step 0.1. -/
theorem verlet_branch_step_witness :
    (surfaceState ⟨0, 0.3, 0⟩ 0.1).simulation_time ≠ 0 ∧
    (surfaceState ⟨0, 0.3, 0⟩ 0.1).delta_t ≠ 0 ∧
    (numerical_dynamics sampleEnv (surfaceState ⟨0, 0.3, 0⟩ 0.1)).previous_position =
      ⟨0, -3386000, 0⟩ ∧
    (numerical_dynamics sampleEnv (surfaceState ⟨0, 0.3, 0⟩ 0.1)).velocity =
      ((numerical_dynamics sampleEnv (surfaceState ⟨0, 0.3, 0⟩ 0.1)).position
        - ⟨0, -3386000, 0⟩).sdiv 0.1 :=
  have h := verlet_branch_step sampleEnv (surfaceState ⟨0, 0.3, 0⟩ 0.1)
    (by norm_num [surfaceState]) (by norm_num [surfaceState])
  ⟨by norm_num [surfaceState], by norm_num [surfaceState], h.2.1, h.2.2.1⟩

/-- C5: in a call with `simulation_time == 0` the Verlet-mode
`numerical_dynamics` leaves the previous position equal to the position held
before the step, the position `position + delta_t*velocity` (with the velocity
held before the step) and the velocity `velocity + delta_t*acceleration`. -/
theorem bootstrap_branch_step (env : Env K) (s : State K)
    (ht : s.simulation_time = 0) :
    (numerical_dynamics env s).previous_position = s.position ∧
    (numerical_dynamics env s).position = s.position + s.velocity.scale s.delta_t ∧
    (numerical_dynamics env s).velocity =
      s.velocity + (acceleration env s).scale s.delta_t := by
  unfold numerical_dynamics
  rw [numerical_dynamics_with_previous_position, numerical_dynamics_with_position,
    numerical_dynamics_with_velocity, integrate_of_time_eq_zero s _ ht]
  exact ⟨rfl, rfl, rfl⟩

/-- Witness for C5: the first step of a surface state moving at 0.3 along `y`
leaves it at `y = -3386000 + 0.1 * 0.3`. -/
theorem bootstrap_branch_step_witness :
    (surfaceState ⟨0, 0.3, 0⟩ 0).simulation_time = 0 ∧
    (numerical_dynamics sampleEnv (surfaceState ⟨0, 0.3, 0⟩ 0)).previous_position =
      ⟨0, -3386000, 0⟩ ∧
    (numerical_dynamics sampleEnv (surfaceState ⟨0, 0.3, 0⟩ 0)).position =
      ⟨0, -3385999.97, 0⟩ := by
  have h := bootstrap_branch_step sampleEnv (surfaceState ⟨0, 0.3, 0⟩ 0) rfl
  refine ⟨rfl, h.1, ?_⟩
  rw [h.2.1]
  ext <;> norm_num [surfaceState]

end Integrator

/-! ## Magnitudes -/

section Magnitude

variable {K : Type} [LinearOrderedField K]

/-- A non-negative square root is unique. -/
theorem IsSqrt.eq_of_sq {r x t : K} (h : IsSqrt r x) (ht : 0 ≤ t) (hx : t * t = x) :
    r = t := by
  obtain ⟨hr, hrx⟩ := h
  exact (mul_self_inj hr ht).mp (hrx.trans hx.symm)

/-- The magnitude of `v` is any non-negative `t` whose square is `v.abs2()`. -/
theorem abs_eq_of_sq (sqrt : K → K) (v : vector3d K) (h : IsSqrtAt sqrt v.abs2)
    {t : K} (ht : 0 ≤ t) (hx : t * t = v.abs2) : v.abs sqrt = t :=
  IsSqrt.eq_of_sq h ht hx

theorem abs_nonneg_of (sqrt : K → K) (v : vector3d K) (h : IsSqrtAt sqrt v.abs2) :
    0 ≤ v.abs sqrt := h.1

theorem abs_mul_abs_of (sqrt : K → K) (v : vector3d K) (h : IsSqrtAt sqrt v.abs2) :
    v.abs sqrt * v.abs sqrt = v.abs2 := h.2

theorem abs2_scale (v : vector3d K) (a : K) : (v.scale a).abs2 = a * a * v.abs2 := by
  simp only [vector3d.abs2, vector3d.scale]; ring

/-- Scaling a vector by `a` scales its magnitude by `|a|`. -/
theorem abs_scale (sqrt : K → K) (v : vector3d K) (a : K) (h : IsSqrtAt sqrt v.abs2)
    (ha : IsSqrtAt sqrt (v.scale a).abs2) :
    (v.scale a).abs sqrt = |a| * v.abs sqrt := by
  apply abs_eq_of_sq sqrt _ ha (mul_nonneg (abs_nonneg a) h.1)
  have h1 := abs_mul_abs_of sqrt v h
  have h2 := abs_mul_abs_self a
  calc |a| * v.abs sqrt * (|a| * v.abs sqrt)
      = (|a| * |a|) * (v.abs sqrt * v.abs sqrt) := by ring
    _ = a * a * v.abs2 := by rw [h1, h2]
    _ = (v.scale a).abs2 := (abs2_scale v a).symm

end Magnitude

/-! ## Drag -/

section Drag

variable {K : Type} [LinearOrderedField K]

theorem parachute_area_nonneg (env : Env K) : 0 ≤ parachute_area env := by
  have h : parachute_area env = 3.1416 * ((2 * env.LANDER_SIZE) * (2 * env.LANDER_SIZE)) := by
    unfold parachute_area; ring
  rw [h]
  exact mul_nonneg (by norm_num) (mul_self_nonneg _)

theorem Area_nonneg (env : Env K) : 0 ≤ Area env := by
  unfold Area
  exact mul_nonneg (mul_self_nonneg _) (by norm_num)

/-- The chute term is the velocity times a scalar proportional to the speed. -/
theorem chute_drag_eq_scale (env : Env K) (rho : K) (v : vector3d K) :
    chute_drag env rho v =
      v.scale (-(0.5 * rho * env.DRAG_COEF_CHUTE * parachute_area env * v.abs env.sqrt)) := by
  ext <;> simp [chute_drag] <;> ring

/-- The magnitude of the chute term is quadratic in the speed. -/
theorem chute_drag_abs (env : Env K) (rho : K) (v : vector3d K)
    (hv : IsSqrtAt env.sqrt v.abs2) (hc : IsSqrtAt env.sqrt (chute_drag env rho v).abs2) :
    (chute_drag env rho v).abs env.sqrt =
      |0.5 * rho * env.DRAG_COEF_CHUTE * parachute_area env| * v.abs env.sqrt ^ 2 := by
  apply abs_eq_of_sq env.sqrt _ hc (mul_nonneg (abs_nonneg _) (sq_nonneg _))
  have h1 := abs_mul_abs_of env.sqrt v hv
  have h := abs_mul_abs_self (0.5 * rho * env.DRAG_COEF_CHUTE * parachute_area env)
  calc |0.5 * rho * env.DRAG_COEF_CHUTE * parachute_area env| * v.abs env.sqrt ^ 2 *
        (|0.5 * rho * env.DRAG_COEF_CHUTE * parachute_area env| * v.abs env.sqrt ^ 2)
      = (|0.5 * rho * env.DRAG_COEF_CHUTE * parachute_area env| *
          |0.5 * rho * env.DRAG_COEF_CHUTE * parachute_area env|) *
          (v.abs env.sqrt * v.abs env.sqrt) * (v.abs env.sqrt * v.abs env.sqrt) := by ring
    _ = (0.5 * rho * env.DRAG_COEF_CHUTE * parachute_area env *
          (0.5 * rho * env.DRAG_COEF_CHUTE * parachute_area env)) *
          (v.abs env.sqrt * v.abs env.sqrt) * v.abs2 := by
        rw [h, h1]
    _ = (v.scale (-(0.5 * rho * env.DRAG_COEF_CHUTE * parachute_area env
          * v.abs env.sqrt))).abs2 := by
        rw [abs2_scale]; ring
    _ = (chute_drag env rho v).abs2 := by rw [← chute_drag_eq_scale]

/-- Doubling a vector doubles its magnitude. -/
theorem abs_scale_two (sqrt : K → K) (v : vector3d K) (hv : IsSqrtAt sqrt v.abs2)
    (hv2 : IsSqrtAt sqrt (v.scale 2).abs2) : (v.scale 2).abs sqrt = 2 * v.abs sqrt := by
  rw [abs_scale sqrt v 2 hv hv2, abs_of_nonneg (by norm_num : (0 : K) ≤ 2)]

/-- C6 (amended): when the parachute is deployed `numerical_dynamics` adds to
the drag the chute term `velocity * (-0.5*density*DRAG_COEF_CHUTE*parachute_area*|velocity|)`,
whose magnitude `|0.5*density*DRAG_COEF_CHUTE*parachute_area| * |velocity|^2` is
quadratic in the speed: the chute term at the velocity `2v` is four times the
chute term at `v`, and so is its magnitude. -/
theorem chute_drag_quadratic (env : Env K) (rho : K) (v : vector3d K)
    (hv : IsSqrtAt env.sqrt v.abs2) (hv2 : IsSqrtAt env.sqrt (v.scale 2).abs2)
    (hc : IsSqrtAt env.sqrt (chute_drag env rho v).abs2)
    (hc2 : IsSqrtAt env.sqrt (chute_drag env rho (v.scale 2)).abs2) :
    (∀ s : State K, s.parachute_status = parachute_status_t.DEPLOYED →
      drag env s = body_drag env (density env s) s.velocity
        + chute_drag env (density env s) s.velocity) ∧
    (∀ s : State K, s.parachute_status ≠ parachute_status_t.DEPLOYED →
      drag env s = body_drag env (density env s) s.velocity) ∧
    chute_drag env rho v =
      v.scale (-(0.5 * rho * env.DRAG_COEF_CHUTE * parachute_area env * v.abs env.sqrt)) ∧
    (chute_drag env rho v).abs env.sqrt =
      |0.5 * rho * env.DRAG_COEF_CHUTE * parachute_area env| * v.abs env.sqrt ^ 2 ∧
    (0 ≤ rho → 0 ≤ env.DRAG_COEF_CHUTE →
      (chute_drag env rho v).abs env.sqrt =
        0.5 * rho * env.DRAG_COEF_CHUTE * parachute_area env * v.abs env.sqrt ^ 2) ∧
    chute_drag env rho (v.scale 2) = (chute_drag env rho v).scale 4 ∧
    (chute_drag env rho (v.scale 2)).abs env.sqrt =
      4 * (chute_drag env rho v).abs env.sqrt := by
  have h2 := abs_scale_two env.sqrt v hv hv2
  refine ⟨?_, ?_, chute_drag_eq_scale env rho v, chute_drag_abs env rho v hv hc, ?_, ?_, ?_⟩
  · intro s hs
    simp [drag, hs]
  · intro s hs
    simp [drag, hs]
  · intro hrho hC
    rw [chute_drag_abs env rho v hv hc, abs_of_nonneg]
    exact mul_nonneg (mul_nonneg (mul_nonneg (by norm_num) hrho) hC)
      (parachute_area_nonneg env)
  · rw [chute_drag_eq_scale, chute_drag_eq_scale, h2]
    ext <;> simp <;> ring
  · rw [chute_drag_abs env rho _ hv2 hc2, chute_drag_abs env rho v hv hc, h2]
    ring

/-- The chute term of the sample environment at the velocity `(0, 10, 0)`. -/
theorem sample_chute_drag :
    chute_drag sampleEnv 0.01 ⟨0, 10, 0⟩ = ⟨0, -50.2656, 0⟩ := by
  ext <;> norm_num [chute_drag, parachute_area, sampleEnv, vector3d.abs, vector3d.abs2,
    sampleSqrt, sampleRoots, List.find?]

/-- The chute term of the sample environment at the velocity `(0, 20, 0)`. -/
theorem sample_chute_drag_doubled :
    chute_drag sampleEnv 0.01 ((⟨0, 10, 0⟩ : vector3d ℚ).scale 2) = ⟨0, -201.0624, 0⟩ := by
  ext <;> norm_num [chute_drag, parachute_area, sampleEnv, vector3d.abs, vector3d.abs2,
    sampleSqrt, sampleRoots, List.find?]

/-- The sample square root is exact at the four points met when the chute term
is evaluated at `(0, 10, 0)` and at its double. -/
theorem sample_chute_exact :
    IsSqrtAt sampleEnv.sqrt (⟨0, 10, 0⟩ : vector3d ℚ).abs2 ∧
    IsSqrtAt sampleEnv.sqrt ((⟨0, 10, 0⟩ : vector3d ℚ).scale 2).abs2 ∧
    IsSqrtAt sampleEnv.sqrt (chute_drag sampleEnv 0.01 ⟨0, 10, 0⟩).abs2 ∧
    IsSqrtAt sampleEnv.sqrt
      (chute_drag sampleEnv 0.01 ((⟨0, 10, 0⟩ : vector3d ℚ).scale 2)).abs2 := by
  rw [sample_chute_drag, sample_chute_drag_doubled]
  refine ⟨?_, ?_, ?_, ?_⟩ <;>
    norm_num [IsSqrtAt, IsSqrt, sampleEnv, vector3d.abs2, sampleSqrt, sampleRoots,
      List.find?]

/-- Counterexample to C6 as stated: in the sample environment, with density
0.01 and velocity `(0, 10, 0)`, the chute term has magnitude 50.2656, not
`0.5*density*DRAG_COEF_CHUTE*parachute_area*|velocity| = 5.02656`, and at the
doubled velocity it has magnitude 201.0624, four times as much, not twice. -/
theorem chute_drag_not_linear :
    chute_drag sampleEnv 0.01 ⟨0, 10, 0⟩ = ⟨0, -50.2656, 0⟩ ∧
    (⟨0, 10, 0⟩ : vector3d ℚ).abs sampleEnv.sqrt = 10 ∧
    (chute_drag sampleEnv 0.01 ⟨0, 10, 0⟩).abs sampleEnv.sqrt = 50.2656 ∧
    0.5 * 0.01 * sampleEnv.DRAG_COEF_CHUTE * parachute_area sampleEnv
      * (⟨0, 10, 0⟩ : vector3d ℚ).abs sampleEnv.sqrt = 5.02656 ∧
    (chute_drag sampleEnv 0.01 ((⟨0, 10, 0⟩ : vector3d ℚ).scale 2)).abs sampleEnv.sqrt
      = 201.0624 ∧
    (chute_drag sampleEnv 0.01 ((⟨0, 10, 0⟩ : vector3d ℚ).scale 2)).abs sampleEnv.sqrt
      ≠ 2 * (chute_drag sampleEnv 0.01 ⟨0, 10, 0⟩).abs sampleEnv.sqrt := by
  rw [sample_chute_drag, sample_chute_drag_doubled]
  refine ⟨rfl, ?_, ?_, ?_, ?_, ?_⟩ <;>
    norm_num [parachute_area, sampleEnv, vector3d.abs, vector3d.abs2, sampleSqrt,
      sampleRoots, List.find?]

/-- Witness for C6 (amended): the chute term at `(0, 20, 0)` is four times the
chute term at `(0, 10, 0)`. -/
theorem chute_drag_quadratic_witness :
    (IsSqrtAt sampleEnv.sqrt (⟨0, 10, 0⟩ : vector3d ℚ).abs2 ∧
      IsSqrtAt sampleEnv.sqrt ((⟨0, 10, 0⟩ : vector3d ℚ).scale 2).abs2 ∧
      IsSqrtAt sampleEnv.sqrt (chute_drag sampleEnv 0.01 ⟨0, 10, 0⟩).abs2 ∧
      IsSqrtAt sampleEnv.sqrt
        (chute_drag sampleEnv 0.01 ((⟨0, 10, 0⟩ : vector3d ℚ).scale 2)).abs2) ∧
    chute_drag sampleEnv 0.01 ((⟨0, 10, 0⟩ : vector3d ℚ).scale 2) =
      (chute_drag sampleEnv 0.01 ⟨0, 10, 0⟩).scale 4 ∧
    (chute_drag sampleEnv 0.01 ((⟨0, 10, 0⟩ : vector3d ℚ).scale 2)).abs sampleEnv.sqrt =
      4 * (chute_drag sampleEnv 0.01 ⟨0, 10, 0⟩).abs sampleEnv.sqrt :=
  have h := chute_drag_quadratic sampleEnv 0.01 ⟨0, 10, 0⟩ sample_chute_exact.1
    sample_chute_exact.2.1 sample_chute_exact.2.2.1 sample_chute_exact.2.2.2
  ⟨sample_chute_exact, h.2.2.2.2.2.1, h.2.2.2.2.2.2⟩

/-- The body drag is the unit vector of the velocity times a scalar. -/
theorem body_drag_eq_scale_norm (env : Env K) (rho : K) (v : vector3d K) :
    body_drag env rho v =
      (v.norm env.sqrt).scale (-(0.5 * rho * env.DRAG_COEF_LANDER * Area env * v.abs2)) := by
  ext <;> simp [body_drag] <;> ring

/-- The body drag is the velocity times a scalar. -/
theorem body_drag_eq_scale (env : Env K) (rho : K) (v : vector3d K) :
    body_drag env rho v =
      v.scale (-(0.5 * rho * env.DRAG_COEF_LANDER * Area env * v.abs2 / v.abs env.sqrt)) := by
  ext <;> simp [body_drag, vector3d.norm, div_eq_mul_inv] <;> ring

/-- The body drag of the zero velocity is the zero vector. -/
theorem body_drag_zero (env : Env K) (rho : K) : body_drag env rho 0 = 0 := by
  ext <;> simp [body_drag, vector3d.norm]

/-- The squared magnitude of the body drag. -/
theorem body_drag_abs2 (env : Env K) (rho : K) (v : vector3d K)
    (hv : IsSqrtAt env.sqrt v.abs2) :
    (body_drag env rho v).abs2 =
      (0.5 * rho * env.DRAG_COEF_LANDER * Area env * v.abs2) *
        (0.5 * rho * env.DRAG_COEF_LANDER * Area env * v.abs2) := by
  have h1 := abs_mul_abs_of env.sqrt v hv
  have hn : (v.norm env.sqrt).abs2 * v.abs2 = v.abs2 := by
    have e : (v.norm env.sqrt).abs2 = v.abs2 / (v.abs env.sqrt * v.abs env.sqrt) := by
      simp only [vector3d.norm, vector3d.abs2, vector3d.sdiv, div_eq_mul_inv, mul_inv]
      ring
    rw [e, h1]
    by_cases h0 : v.abs2 = 0
    · rw [h0]; simp
    · rw [div_self h0, one_mul]
  rw [body_drag_eq_scale_norm, abs2_scale]
  calc -(0.5 * rho * env.DRAG_COEF_LANDER * Area env * v.abs2) *
        -(0.5 * rho * env.DRAG_COEF_LANDER * Area env * v.abs2) * (v.norm env.sqrt).abs2
      = (0.5 * rho * env.DRAG_COEF_LANDER * Area env) *
          (0.5 * rho * env.DRAG_COEF_LANDER * Area env * v.abs2) *
          ((v.norm env.sqrt).abs2 * v.abs2) := by ring
    _ = _ := by rw [hn]; ring

/-- The magnitude of the body drag is quadratic in the speed. -/
theorem body_drag_abs (env : Env K) (rho : K) (v : vector3d K) (hrho : 0 ≤ rho)
    (hC : 0 ≤ env.DRAG_COEF_LANDER) (hv : IsSqrtAt env.sqrt v.abs2)
    (hb : IsSqrtAt env.sqrt (body_drag env rho v).abs2) :
    (body_drag env rho v).abs env.sqrt =
      0.5 * rho * env.DRAG_COEF_LANDER * Area env * v.abs env.sqrt ^ 2 := by
  have h1 := abs_mul_abs_of env.sqrt v hv
  have hk : 0 ≤ 0.5 * rho * env.DRAG_COEF_LANDER * Area env :=
    mul_nonneg (mul_nonneg (mul_nonneg (by norm_num) hrho) hC) (Area_nonneg env)
  have e : v.abs env.sqrt ^ 2 = v.abs2 := by rw [sq, h1]
  rw [e]
  apply abs_eq_of_sq env.sqrt _ hb
  · exact mul_nonneg hk (h1 ▸ mul_self_nonneg _)
  · exact (body_drag_abs2 env rho v hv).symm

/-- C7: for a non-negative density (and a non-negative drag coefficient) the
body drag computed by `numerical_dynamics` is a non-positive multiple of the
velocity, the zero vector for the zero velocity, of magnitude
`0.5*density*DRAG_COEF_LANDER*Area*|v|^2` with `Area = 3.1416*LANDER_SIZE^2`;
doubling the velocity multiplies the body drag and its magnitude by four. -/
theorem body_drag_quadratic (env : Env K) (rho : K) (v : vector3d K) (hrho : 0 ≤ rho)
    (hC : 0 ≤ env.DRAG_COEF_LANDER)
    (hv : IsSqrtAt env.sqrt v.abs2) (hv2 : IsSqrtAt env.sqrt (v.scale 2).abs2)
    (hb : IsSqrtAt env.sqrt (body_drag env rho v).abs2)
    (hb2 : IsSqrtAt env.sqrt (body_drag env rho (v.scale 2)).abs2) :
    (∃ c : K, c ≤ 0 ∧ body_drag env rho v = v.scale c) ∧
    body_drag env rho 0 = 0 ∧
    Area env = 3.1416 * env.LANDER_SIZE ^ 2 ∧
    (body_drag env rho v).abs env.sqrt =
      0.5 * rho * env.DRAG_COEF_LANDER * Area env * v.abs env.sqrt ^ 2 ∧
    body_drag env rho (v.scale 2) = (body_drag env rho v).scale 4 ∧
    (body_drag env rho (v.scale 2)).abs env.sqrt =
      4 * (body_drag env rho v).abs env.sqrt ∧
    (∀ s : State K, s.parachute_status ≠ parachute_status_t.DEPLOYED →
      drag env s = body_drag env (density env s) s.velocity) := by
  have h2 := abs_scale_two env.sqrt v hv hv2
  have h1 := abs_mul_abs_of env.sqrt v hv
  have hk : 0 ≤ 0.5 * rho * env.DRAG_COEF_LANDER * Area env :=
    mul_nonneg (mul_nonneg (mul_nonneg (by norm_num) hrho) hC) (Area_nonneg env)
  refine ⟨⟨_, ?_, body_drag_eq_scale env rho v⟩, body_drag_zero env rho, ?_,
    body_drag_abs env rho v hrho hC hv hb, ?_, ?_, ?_⟩
  · rw [neg_nonpos]
    exact div_nonneg (mul_nonneg hk (h1 ▸ mul_self_nonneg _)) hv.1
  · unfold Area; ring
  · rw [body_drag_eq_scale, body_drag_eq_scale, h2, abs2_scale]
    ext <;> simp [div_eq_mul_inv, mul_inv] <;> ring
  · rw [body_drag_abs env rho _ hrho hC hv2 hb2, body_drag_abs env rho v hrho hC hv hb, h2]
    ring
  · intro s hs
    simp [drag, hs]

/-- The body drag of the sample environment at the velocity `(0, 10, 0)`. -/
theorem sample_body_drag :
    body_drag sampleEnv 0.01 ⟨0, 10, 0⟩ = ⟨0, -6.2832, 0⟩ := by
  ext <;> norm_num [body_drag, Area, sampleEnv, vector3d.norm, vector3d.abs, vector3d.abs2,
    sampleSqrt, sampleRoots, List.find?]

/-- The body drag of the sample environment at the velocity `(0, 20, 0)`. -/
theorem sample_body_drag_doubled :
    body_drag sampleEnv 0.01 ((⟨0, 10, 0⟩ : vector3d ℚ).scale 2) = ⟨0, -25.1328, 0⟩ := by
  ext <;> norm_num [body_drag, Area, sampleEnv, vector3d.norm, vector3d.abs, vector3d.abs2,
    sampleSqrt, sampleRoots, List.find?]

/-- The sample square root is exact at the two points met when the body drag
is evaluated at `(0, 10, 0)` and at its double. -/
theorem sample_body_exact :
    IsSqrtAt sampleEnv.sqrt (body_drag sampleEnv 0.01 ⟨0, 10, 0⟩).abs2 ∧
    IsSqrtAt sampleEnv.sqrt
      (body_drag sampleEnv 0.01 ((⟨0, 10, 0⟩ : vector3d ℚ).scale 2)).abs2 := by
  rw [sample_body_drag, sample_body_drag_doubled]
  refine ⟨?_, ?_⟩ <;>
    norm_num [IsSqrtAt, IsSqrt, sampleEnv, vector3d.abs2, sampleSqrt, sampleRoots,
      List.find?]

/-- Witness for C7: in the sample environment the body drag at `(0, 20, 0)` has
four times the magnitude of the body drag at `(0, 10, 0)`, which is 6.2832. -/
theorem body_drag_quadratic_witness :
    (0 : ℚ) ≤ 0.01 ∧ 0 ≤ sampleEnv.DRAG_COEF_LANDER ∧
    (IsSqrtAt sampleEnv.sqrt (⟨0, 10, 0⟩ : vector3d ℚ).abs2 ∧
      IsSqrtAt sampleEnv.sqrt ((⟨0, 10, 0⟩ : vector3d ℚ).scale 2).abs2) ∧
    (IsSqrtAt sampleEnv.sqrt (body_drag sampleEnv 0.01 ⟨0, 10, 0⟩).abs2 ∧
      IsSqrtAt sampleEnv.sqrt
        (body_drag sampleEnv 0.01 ((⟨0, 10, 0⟩ : vector3d ℚ).scale 2)).abs2) ∧
    body_drag sampleEnv 0.01 ⟨0, 10, 0⟩ = ⟨0, -6.2832, 0⟩ ∧
    (body_drag sampleEnv 0.01 ((⟨0, 10, 0⟩ : vector3d ℚ).scale 2)).abs sampleEnv.sqrt =
      4 * (body_drag sampleEnv 0.01 ⟨0, 10, 0⟩).abs sampleEnv.sqrt :=
  have h0 : (0 : ℚ) ≤ 0.01 := by norm_num
  have hC : 0 ≤ sampleEnv.DRAG_COEF_LANDER := by norm_num [sampleEnv]
  have h := body_drag_quadratic sampleEnv 0.01 ⟨0, 10, 0⟩ h0 hC sample_chute_exact.1
    sample_chute_exact.2.1 sample_body_exact.1 sample_body_exact.2
  ⟨h0, hC, ⟨sample_chute_exact.1, sample_chute_exact.2.1⟩, sample_body_exact,
    sample_body_drag, h.2.2.2.2.2.1⟩

end Drag

/-! ## Gravity and the net acceleration -/

section Acceleration

variable {K : Type} [LinearOrderedField K]

/-- A vector other than zero has a positive squared magnitude. -/
theorem abs2_pos_of_ne_zero (v : vector3d K) (hv : v ≠ 0) : 0 < v.abs2 := by
  by_contra hneg
  apply hv
  have hx := mul_self_nonneg v.x
  have hy := mul_self_nonneg v.y
  have hz := mul_self_nonneg v.z
  have hle : v.x * v.x + v.y * v.y + v.z * v.z ≤ 0 := not_lt.mp hneg
  have ex : v.x * v.x = 0 := by linarith
  have ey : v.y * v.y = 0 := by linarith
  have ez : v.z * v.z = 0 := by linarith
  ext
  · exact mul_self_eq_zero.mp ex
  · exact mul_self_eq_zero.mp ey
  · exact mul_self_eq_zero.mp ez

/-- The unit vector of a vector other than zero has squared magnitude 1. -/
theorem abs2_norm (sqrt : K → K) (v : vector3d K) (hv : v ≠ 0)
    (hs : IsSqrtAt sqrt v.abs2) : (v.norm sqrt).abs2 = 1 := by
  have h1 := abs_mul_abs_of sqrt v hs
  have hpos := abs2_pos_of_ne_zero v hv
  have e : (v.norm sqrt).abs2 = v.abs2 / (v.abs sqrt * v.abs sqrt) := by
    simp only [vector3d.norm, vector3d.abs2, vector3d.sdiv, div_eq_mul_inv, mul_inv]
    ring
  rw [e, h1, div_self (ne_of_gt hpos)]

/-- The gravity is the inward unit vector times `G*M*m/|position|^2`. -/
theorem gravity_eq_scale_norm (env : Env K) (s : State K)
    (hs : IsSqrtAt env.sqrt s.position.abs2) :
    gravity env s =
      (-(s.position.norm env.sqrt)).scale
        (env.GRAVITY * env.MARS_MASS * mass env s / s.position.abs env.sqrt ^ 2) := by
  have h1 := abs_mul_abs_of env.sqrt s.position hs
  rw [sq, h1]
  ext <;> simp [gravity, div_eq_mul_inv] <;> ring

/-- C8: for a position other than zero and a positive mass `m`, the
acceleration used by `numerical_dynamics` is `(thrust + drag + gravity)/m`,
where the gravity is `-unit(position) * GRAVITY*MARS_MASS*m/|position|^2`, of
magnitude `GRAVITY*MARS_MASS*m/|position|^2` and directed from the body to the
centre of the planet, and the drag is the body drag plus, only when the
parachute is deployed, the chute term. -/
theorem acceleration_law (env : Env K) (s : State K) (hp : s.position ≠ 0)
    (hm : 0 < mass env s) (hG : 0 ≤ env.GRAVITY) (hM : 0 ≤ env.MARS_MASS)
    (hs : IsSqrtAt env.sqrt s.position.abs2)
    (hg : IsSqrtAt env.sqrt (gravity env s).abs2) :
    acceleration env s =
      (env.thrust_wrt_world s.throttle s.orientation s.fuel + drag env s
        + gravity env s).sdiv (mass env s) ∧
    gravity env s =
      (-(s.position.norm env.sqrt)).scale
        (env.GRAVITY * env.MARS_MASS * mass env s / s.position.abs env.sqrt ^ 2) ∧
    (s.position.norm env.sqrt).abs2 = 1 ∧
    (gravity env s).abs env.sqrt =
      env.GRAVITY * env.MARS_MASS * mass env s / s.position.abs env.sqrt ^ 2 ∧
    (∃ c : K, 0 ≤ c ∧ gravity env s = s.position.scale (-c)) ∧
    drag env s =
      (if s.parachute_status = parachute_status_t.DEPLOYED then
        body_drag env (density env s) s.velocity + chute_drag env (density env s) s.velocity
      else body_drag env (density env s) s.velocity) := by
  have h1 := abs_mul_abs_of env.sqrt s.position hs
  have hn := abs2_norm env.sqrt s.position hp hs
  have hpos := abs2_pos_of_ne_zero s.position hp
  have habs : 0 < s.position.abs env.sqrt := by
    rcases lt_or_eq_of_le hs.1 with h | h
    · exact h
    · exfalso
      have h0 : s.position.abs env.sqrt = 0 := h.symm
      rw [h0, mul_zero] at h1
      exact absurd h1 (ne_of_lt hpos)
  have hk : 0 ≤ env.GRAVITY * env.MARS_MASS * mass env s / s.position.abs env.sqrt ^ 2 :=
    div_nonneg (mul_nonneg (mul_nonneg hG hM) (le_of_lt hm)) (sq_nonneg _)
  have hgs := gravity_eq_scale_norm env s hs
  refine ⟨rfl, hgs, hn, ?_, ?_, ?_⟩
  · apply abs_eq_of_sq env.sqrt _ hg hk
    rw [hgs, abs2_scale]
    have e : (-(s.position.norm env.sqrt)).abs2 = (s.position.norm env.sqrt).abs2 := by
      simp only [vector3d.abs2, vector3d.neg_x, vector3d.neg_y, vector3d.neg_z]; ring
    rw [e, hn, mul_one]
  · refine ⟨env.GRAVITY * env.MARS_MASS * mass env s / s.position.abs env.sqrt ^ 2
      / s.position.abs env.sqrt, div_nonneg hk hs.1, ?_⟩
    rw [hgs]
    ext <;> simp [vector3d.norm, div_eq_mul_inv] <;> ring
  · unfold drag
    split_ifs <;> rfl

/-- The gravity on the sample lander at 4000 km from the centre. -/
theorem sample_gravity : gravity sampleEnv highState = ⟨0, 535.50825, 0⟩ := by
  ext <;> norm_num [gravity, mass, highState, sampleEnv, vector3d.norm, vector3d.abs,
    vector3d.abs2, sampleSqrt, sampleRoots, List.find?]

/-- Witness for C8: the sample lander at 4000 km from the centre, of mass 200,
is pulled towards the centre with the force 535.50825. -/
theorem acceleration_law_witness :
    highState.position ≠ 0 ∧ 0 < mass sampleEnv highState ∧
    IsSqrtAt sampleEnv.sqrt highState.position.abs2 ∧
    IsSqrtAt sampleEnv.sqrt (gravity sampleEnv highState).abs2 ∧
    gravity sampleEnv highState = ⟨0, 535.50825, 0⟩ ∧
    (gravity sampleEnv highState).abs sampleEnv.sqrt =
      sampleEnv.GRAVITY * sampleEnv.MARS_MASS * mass sampleEnv highState
        / highState.position.abs sampleEnv.sqrt ^ 2 :=
  have hp : highState.position ≠ 0 := by
    intro h
    have hy := congrArg vector3d.y h
    norm_num [highState] at hy
  have hm : 0 < mass sampleEnv highState := by norm_num [mass, sampleEnv, highState]
  have hs : IsSqrtAt sampleEnv.sqrt highState.position.abs2 := by
    norm_num [IsSqrtAt, IsSqrt, highState, sampleEnv, vector3d.abs2, sampleSqrt,
      sampleRoots, List.find?]
  have hg : IsSqrtAt sampleEnv.sqrt (gravity sampleEnv highState).abs2 := by
    rw [sample_gravity]
    norm_num [IsSqrtAt, IsSqrt, sampleEnv, vector3d.abs2, sampleSqrt, sampleRoots,
      List.find?]
  have h := acceleration_law sampleEnv highState hp hm (by norm_num [sampleEnv])
    (by norm_num [sampleEnv]) hs hg
  ⟨hp, hm, hs, hg, sample_gravity, h.2.2.2.1⟩

end Acceleration

/-! ## The choice of the update and the control latency -/

section Sequencing

variable {K : Type} [LinearOrderedField K]

/-- Counterexample to C9 as stated: after a first call of `numerical_dynamics`
on a sample state, a later call made while the clock holds 0 takes the
Bootstrap update again, not the Steady-state one. -/
theorem bootstrap_taken_again :
    branch_taken INTERGRATION_METHOD
      { numerical_dynamics sampleEnv (surfaceState ⟨0, 0.3, 0⟩ 0) with simulation_time := 0 }
      = Branch.Bootstrap ∧
    branch_taken INTERGRATION_METHOD
      { numerical_dynamics sampleEnv (surfaceState ⟨0, 0.3, 0⟩ 0) with simulation_time := 0 }
      ≠ Branch.SteadyState ∧
    (numerical_dynamics sampleEnv (surfaceState ⟨0, 0.3, 0⟩ 0)).simulation_time = 0 ∧
    branch_taken INTERGRATION_METHOD
      (numerical_dynamics sampleEnv (surfaceState ⟨0, 0.3, 0⟩ 0)) = Branch.Bootstrap := by
  have h0 : (numerical_dynamics sampleEnv (surfaceState ⟨0, 0.3, 0⟩ 0)).simulation_time = 0 := by
    rw [numerical_dynamics_simulation_time]; rfl
  refine ⟨branch_taken_of_time_eq_zero _ rfl, ?_, h0, branch_taken_of_time_eq_zero _ h0⟩
  rw [branch_taken_of_time_eq_zero _ rfl]
  decide

/-- C9 (amended): the Verlet-mode `numerical_dynamics` chooses its update by
comparing the clock with zero at every call: a call takes the Bootstrap update
exactly when `simulation_time == 0` and the Steady-state update exactly when
`simulation_time != 0`, also after a first call; the procedure itself does not
write the clock. -/
theorem branch_chosen_by_clock (env : Env K) (s : State K) (t : K) :
    (branch_taken INTERGRATION_METHOD s = Branch.Bootstrap ↔ s.simulation_time = 0) ∧
    (branch_taken INTERGRATION_METHOD s = Branch.SteadyState ↔ s.simulation_time ≠ 0) ∧
    (numerical_dynamics env s).simulation_time = s.simulation_time ∧
    (branch_taken INTERGRATION_METHOD
        { numerical_dynamics env s with simulation_time := t } = Branch.Bootstrap ↔ t = 0) ∧
    (branch_taken INTERGRATION_METHOD
        { numerical_dynamics env s with simulation_time := t } = Branch.SteadyState ↔
      t ≠ 0) := by
  have key : ∀ u : State K,
      (branch_taken INTERGRATION_METHOD u = Branch.Bootstrap ↔ u.simulation_time = 0) ∧
      (branch_taken INTERGRATION_METHOD u = Branch.SteadyState ↔ u.simulation_time ≠ 0) := by
    intro u
    by_cases h : u.simulation_time = 0
    · rw [branch_taken_of_time_eq_zero u h]
      simp [h]
    · rw [branch_taken_of_time_ne_zero u h]
      simp [h]
  exact ⟨(key s).1, (key s).2, numerical_dynamics_simulation_time env s,
    (key { numerical_dynamics env s with simulation_time := t }).1,
    (key { numerical_dynamics env s with simulation_time := t }).2⟩

/-- The acceleration does not read the flag `autopilot_enabled`. -/
theorem acceleration_autopilot_enabled (env : Env K) (s : State K) (b : Bool) :
    acceleration env { s with autopilot_enabled := b } = acceleration env s := rfl

/-- The integration neither reads nor writes the flag `autopilot_enabled`. -/
theorem integrate_autopilot_enabled (m : Nat) (s : State K) (a : vector3d K) (b : Bool) :
    integrate m { s with autopilot_enabled := b } a =
      { integrate m s a with autopilot_enabled := b } := by
  unfold integrate
  have hb : branch_taken m { s with autopilot_enabled := b } = branch_taken m s := rfl
  rw [hb]
  cases branch_taken m s <;> rfl

/-- C10: the position and the velocity left by one call of
`numerical_dynamics` are the same with the autopilot enabled or disabled: they
are those of the integration with the acceleration of the state before the
call, while the throttle that the enabled autopilot writes is computed from the
state after the integration. -/
theorem autopilot_one_tick_latency (env : Env K) (s : State K) :
    (numerical_dynamics env { s with autopilot_enabled := true }).position =
      (numerical_dynamics env { s with autopilot_enabled := false }).position ∧
    (numerical_dynamics env { s with autopilot_enabled := true }).velocity =
      (numerical_dynamics env { s with autopilot_enabled := false }).velocity ∧
    (numerical_dynamics env s).position =
      (integrate INTERGRATION_METHOD s (acceleration env s)).position ∧
    (numerical_dynamics env s).velocity =
      (integrate INTERGRATION_METHOD s (acceleration env s)).velocity ∧
    (numerical_dynamics env { s with autopilot_enabled := true }).throttle =
      throttle_of_pout
        (autopilot_pout env (integrate INTERGRATION_METHOD s (acceleration env s))) ∧
    (numerical_dynamics env { s with autopilot_enabled := false }).throttle = s.throttle := by
  have hi : ∀ b : Bool,
      integrate INTERGRATION_METHOD { s with autopilot_enabled := b }
        (acceleration env { s with autopilot_enabled := b }) =
      { integrate INTERGRATION_METHOD s (acceleration env s) with autopilot_enabled := b } :=
    fun b => integrate_autopilot_enabled _ s _ b
  have ht : (integrate INTERGRATION_METHOD s (acceleration env s)).throttle = s.throttle := by
    unfold integrate
    cases branch_taken INTERGRATION_METHOD s <;> rfl
  have hpos : ∀ b : Bool, (numerical_dynamics env { s with autopilot_enabled := b }).position =
      (integrate INTERGRATION_METHOD s (acceleration env s)).position := by
    intro b
    have h := numerical_dynamics_with_position INTERGRATION_METHOD env
      { s with autopilot_enabled := b }
    rw [hi b] at h
    exact h
  have hvel : ∀ b : Bool, (numerical_dynamics env { s with autopilot_enabled := b }).velocity =
      (integrate INTERGRATION_METHOD s (acceleration env s)).velocity := by
    intro b
    have h := numerical_dynamics_with_velocity INTERGRATION_METHOD env
      { s with autopilot_enabled := b }
    rw [hi b] at h
    exact h
  refine ⟨(hpos true).trans (hpos false).symm, (hvel true).trans (hvel false).symm,
    numerical_dynamics_with_position _ env s, numerical_dynamics_with_velocity _ env s, ?_, ?_⟩
  · unfold numerical_dynamics numerical_dynamics_with
    rw [apply_stabilization_throttle, hi true]
    rfl
  · unfold numerical_dynamics numerical_dynamics_with
    rw [apply_stabilization_throttle, hi false]
    exact ht

end Sequencing

/-! ## Division by the position magnitude and by the mass -/

section Guard

variable {K : Type} [LinearOrderedField K]

/-- The first step of the sample lander at the centre of the planet. -/
theorem sample_centre_position :
    (numerical_dynamics sampleEnv centreState).position = ⟨0, 0.03, 0⟩ := by
  unfold numerical_dynamics
  rw [numerical_dynamics_with_position, integrate_of_time_eq_zero centreState _ rfl]
  ext <;> norm_num [bootstrap_step, centreState]

/-- The first step of the sample lander of mass zero. -/
theorem sample_massless_position :
    (numerical_dynamics sampleEnv masslessState).position = ⟨0, -3385999.97, 0⟩ := by
  unfold numerical_dynamics
  rw [numerical_dynamics_with_position, integrate_of_time_eq_zero masslessState _ rfl]
  ext <;> norm_num [bootstrap_step, masslessState, surfaceState]

/-- Counterexample to C11 as stated: for the sample lander at the centre of
the planet (position magnitude 0) and for the sample lander of effective mass
0, where the specification asks for a precondition violation, the first call
of `numerical_dynamics` completes and leaves a new position. -/
theorem zero_divisor_step_completes :
    centreState.position.abs sampleEnv.sqrt = 0 ∧
    guarded_numerical_dynamics sampleEnv centreState = none ∧
    (numerical_dynamics sampleEnv centreState).position = ⟨0, 0.03, 0⟩ ∧
    guarded_numerical_dynamics sampleEnv centreState
      ≠ some (numerical_dynamics sampleEnv centreState) ∧
    mass sampleEnv masslessState = 0 ∧
    guarded_numerical_dynamics sampleEnv masslessState = none ∧
    (numerical_dynamics sampleEnv masslessState).position = ⟨0, -3385999.97, 0⟩ ∧
    guarded_numerical_dynamics sampleEnv masslessState
      ≠ some (numerical_dynamics sampleEnv masslessState) := by
  have hc : centreState.position.abs sampleEnv.sqrt = 0 := by
    norm_num [centreState, sampleEnv, vector3d.abs, vector3d.abs2, sampleSqrt, sampleRoots,
      List.find?]
  have hm : mass sampleEnv masslessState = 0 := by
    norm_num [mass, masslessState, surfaceState, sampleEnv]
  have gc : guarded_numerical_dynamics sampleEnv centreState = none := by
    unfold guarded_numerical_dynamics
    rw [if_pos (Or.inl hc)]
  have gm : guarded_numerical_dynamics sampleEnv masslessState = none := by
    unfold guarded_numerical_dynamics
    rw [if_pos (Or.inr hm)]
  refine ⟨hc, gc, sample_centre_position, ?_, hm, gm, sample_massless_position, ?_⟩
  · rw [gc]; exact fun h => Option.noConfusion h
  · rw [gm]; exact fun h => Option.noConfusion h

/-- C11 (amended): `numerical_dynamics` does not guard its divisions and has
no error outcome: when the position magnitude is zero or the effective mass is
zero, a call on the first tick (`simulation_time == 0`) still completes,
setting `previous_position` to the position and the position to
`position + delta_t*velocity`, two values that do not pass through the
division. -/
theorem numerical_dynamics_unguarded (env : Env K) (s : State K)
    (_hz : s.position.abs env.sqrt = 0 ∨ mass env s = 0) (ht : s.simulation_time = 0) :
    (numerical_dynamics env s).previous_position = s.position ∧
    (numerical_dynamics env s).position = s.position + s.velocity.scale s.delta_t := by
  unfold numerical_dynamics
  rw [numerical_dynamics_with_previous_position, numerical_dynamics_with_position,
    integrate_of_time_eq_zero s _ ht]
  exact ⟨rfl, rfl⟩

/-- Witness for C11 (amended): the first call for the sample lander at the
centre of the planet leaves it at `0.1 * 0.3` along `y`. -/
theorem numerical_dynamics_unguarded_witness :
    ((centreState.position.abs sampleEnv.sqrt = 0 ∨ mass sampleEnv centreState = 0) ∧
      centreState.simulation_time = 0) ∧
    (numerical_dynamics sampleEnv centreState).previous_position = ⟨0, 0, 0⟩ ∧
    (numerical_dynamics sampleEnv centreState).position = ⟨0, 0.03, 0⟩ := by
  have hz : centreState.position.abs sampleEnv.sqrt = 0 ∨ mass sampleEnv centreState = 0 :=
    Or.inl (by
      norm_num [centreState, sampleEnv, vector3d.abs, vector3d.abs2, sampleSqrt,
        sampleRoots, List.find?])
  have h := numerical_dynamics_unguarded sampleEnv centreState hz rfl
  refine ⟨⟨hz, rfl⟩, h.1, ?_⟩
  rw [h.2]
  ext <;> norm_num [centreState]

/-- C12: the effective mass used by `numerical_dynamics` is
`UNLOADED_LANDER_MASS + FUEL_CAPACITY*FUEL_DENSITY*fuel`; for a fuel fraction
in `[0, 1]`, a positive unloaded mass and non-negative capacity and fuel
density it is at least the unloaded mass, hence positive, so the divisor of
the acceleration is not zero. -/
theorem mass_ge_unloaded (env : Env K) (s : State K)
    (hU : 0 < env.UNLOADED_LANDER_MASS) (hc : 0 ≤ env.FUEL_CAPACITY)
    (hd : 0 ≤ env.FUEL_DENSITY) (hf0 : 0 ≤ s.fuel) (hf1 : s.fuel ≤ 1) :
    mass env s = env.UNLOADED_LANDER_MASS + env.FUEL_CAPACITY * env.FUEL_DENSITY * s.fuel ∧
    env.UNLOADED_LANDER_MASS ≤ mass env s ∧
    mass env s ≤ env.UNLOADED_LANDER_MASS + env.FUEL_CAPACITY * env.FUEL_DENSITY ∧
    0 < mass env s ∧
    mass env s ≠ 0 ∧
    acceleration env s =
      (thrust env s + drag env s + gravity env s).sdiv (mass env s) := by
  have hcd : 0 ≤ env.FUEL_CAPACITY * env.FUEL_DENSITY := mul_nonneg hc hd
  have hfuel : 0 ≤ env.FUEL_CAPACITY * env.FUEL_DENSITY * s.fuel := mul_nonneg hcd hf0
  have hle : env.FUEL_CAPACITY * env.FUEL_DENSITY * s.fuel
      ≤ env.FUEL_CAPACITY * env.FUEL_DENSITY := by
    calc env.FUEL_CAPACITY * env.FUEL_DENSITY * s.fuel
        ≤ env.FUEL_CAPACITY * env.FUEL_DENSITY * 1 := mul_le_mul_of_nonneg_left hf1 hcd
      _ = env.FUEL_CAPACITY * env.FUEL_DENSITY := mul_one _
  have hge : env.UNLOADED_LANDER_MASS ≤ mass env s := by
    unfold mass; linarith
  have hpos : 0 < mass env s := lt_of_lt_of_le hU hge
  refine ⟨rfl, hge, ?_, hpos, ne_of_gt hpos, rfl⟩
  unfold mass; linarith

/-- Witness for C12: the sample lander with full tanks has the mass 200, at
least its unloaded mass 100. -/
theorem mass_ge_unloaded_witness :
    (0 < sampleEnv.UNLOADED_LANDER_MASS ∧ 0 ≤ sampleEnv.FUEL_CAPACITY ∧
      0 ≤ sampleEnv.FUEL_DENSITY ∧ 0 ≤ highState.fuel ∧ highState.fuel ≤ 1) ∧
    mass sampleEnv highState = 200 ∧
    sampleEnv.UNLOADED_LANDER_MASS ≤ mass sampleEnv highState ∧
    mass sampleEnv highState ≠ 0 :=
  have hU : 0 < sampleEnv.UNLOADED_LANDER_MASS := by norm_num [sampleEnv]
  have hc : 0 ≤ sampleEnv.FUEL_CAPACITY := by norm_num [sampleEnv]
  have hd : 0 ≤ sampleEnv.FUEL_DENSITY := by norm_num [sampleEnv]
  have hf0 : 0 ≤ highState.fuel := by norm_num [highState]
  have hf1 : highState.fuel ≤ 1 := by norm_num [highState]
  have h := mass_ge_unloaded sampleEnv highState hU hc hd hf0 hf1
  ⟨⟨hU, hc, hd, hf0, hf1⟩, by norm_num [mass, sampleEnv, highState], h.2.1, h.2.2.2.2.1⟩

end Guard

/-! ## Scenario selection -/

section Scenario

variable {K : Type} [LinearOrderedField K]

/-- An index other than 0 to 5 leaves every variable as it was. -/
theorem initialize_simulation_other (env : Env K) (m : Int) (s : State K)
    (h : m < 0 ∨ 5 < m) : initialize_simulation env m s = s := by
  have h0 : m ≠ 0 := by omega
  have h1 : m ≠ 1 := by omega
  have h2 : m ≠ 2 := by omega
  have h3 : m ≠ 3 := by omega
  have h4 : m ≠ 4 := by omega
  have h5 : m ≠ 5 := by omega
  simp [initialize_simulation, h0, h1, h2, h3, h4, h5]

/-- Counterexample to C13 as stated: with the scenario index 6 the procedure
`initialize_simulation` leaves two different sample states as they were, so
the position after the call is not determined by the index. -/
theorem scenario_six_keeps_state :
    initialize_simulation sampleEnv 6 centreState = centreState ∧
    initialize_simulation sampleEnv 6 highState = highState ∧
    (initialize_simulation sampleEnv 6 centreState).position = ⟨0, 0, 0⟩ ∧
    (initialize_simulation sampleEnv 6 highState).position = ⟨0, -4000000, 0⟩ ∧
    (initialize_simulation sampleEnv 6 centreState).position ≠
      (initialize_simulation sampleEnv 6 highState).position := by
  have hc := initialize_simulation_other sampleEnv 6 centreState (Or.inr (by norm_num))
  have hh := initialize_simulation_other sampleEnv 6 highState (Or.inr (by norm_num))
  rw [hc, hh]
  refine ⟨rfl, rfl, rfl, rfl, ?_⟩
  intro h
  have hy := congrArg vector3d.y h
  norm_num [centreState, highState] at hy

/-- C13 (amended): for a scenario index from 0 to 5 the position, velocity,
orientation, time step, parachute status and the two flags left by
`initialize_simulation` are the same whatever state the call started from;
for an index from 6 to 9 the procedure assigns none of them and the state is
left as it was. -/
theorem scenario_selects_state (env : Env K) (n : Int) (h0 : 0 ≤ n) (h5 : n ≤ 5)
    (s1 s2 : State K) :
    (initialize_simulation env n s1).position = (initialize_simulation env n s2).position ∧
    (initialize_simulation env n s1).velocity = (initialize_simulation env n s2).velocity ∧
    (initialize_simulation env n s1).orientation =
      (initialize_simulation env n s2).orientation ∧
    (initialize_simulation env n s1).delta_t = (initialize_simulation env n s2).delta_t ∧
    (initialize_simulation env n s1).parachute_status =
      (initialize_simulation env n s2).parachute_status ∧
    (initialize_simulation env n s1).stabilized_attitude =
      (initialize_simulation env n s2).stabilized_attitude ∧
    (initialize_simulation env n s1).autopilot_enabled =
      (initialize_simulation env n s2).autopilot_enabled ∧
    (∀ (m : Int) (s : State K), 6 ≤ m → m ≤ 9 → initialize_simulation env m s = s) := by
  have hlast : ∀ (m : Int) (s : State K), 6 ≤ m → m ≤ 9 →
      initialize_simulation env m s = s :=
    fun m s h6 _ => initialize_simulation_other env m s (Or.inr (by omega))
  interval_cases n <;>
    exact ⟨by simp [initialize_simulation], by simp [initialize_simulation],
      by simp [initialize_simulation], by simp [initialize_simulation],
      by simp [initialize_simulation], by simp [initialize_simulation],
      by simp [initialize_simulation], hlast⟩

/-- Witness for C13 (amended): the scenario 1 started from two different sample
states leaves the lander 10 km above the surface in both cases. -/
theorem scenario_selects_state_witness :
    ((0 : Int) ≤ 1 ∧ (1 : Int) ≤ 5) ∧
    (initialize_simulation sampleEnv 1 centreState).position =
      (initialize_simulation sampleEnv 1 highState).position ∧
    (initialize_simulation sampleEnv 1 highState).position = ⟨0, -3396000, 0⟩ :=
  have h := scenario_selects_state sampleEnv 1 (by norm_num) (by norm_num)
    centreState highState
  ⟨⟨by norm_num, by norm_num⟩, h.1, by
    ext <;> norm_num [initialize_simulation, sampleEnv]⟩

end Scenario

/-! ## The shape of the throttle law -/

section ThrottleLaw

variable {K : Type} [LinearOrderedField K]

/-- The three-way test on `pout` is the shifted clamp. -/
theorem throttle_of_pout_eq_shifted_clamp (p : K) :
    throttle_of_pout p = shifted_clamp p := by
  have hd0 : (0 : K) < BIG_delta K := BIG_delta_pos
  unfold throttle_of_pout shifted_clamp
  split_ifs with h1 h2
  · have hlt : BIG_delta K + p < 0 := by linarith
    rw [min_eq_right (by linarith : BIG_delta K + p ≤ 1), max_eq_left (le_of_lt hlt)]
  · have hge : 0 ≤ BIG_delta K + p := by linarith [not_lt.mp h1]
    rw [min_eq_right (by linarith : BIG_delta K + p ≤ 1), max_eq_right hge]
  · have hge : 1 ≤ BIG_delta K + p := by linarith [not_lt.mp h2]
    rw [min_eq_left hge, max_eq_right zero_le_one]

/-- C14: the throttle written by `autopilot` is the shifted clamp
`max(0, min(1, delta + p))` of the raw command `p`, with `delta = 0.1`; at
`p = -delta` the first two branches both give 0 and at `p = 1 - delta` the
last two both give 1. -/
theorem throttle_is_shifted_clamp (env : Env K) (s : State K) (p : K) :
    throttle_of_pout p = max 0 (min 1 (0.1 + p)) ∧
    (autopilot env s).throttle = max 0 (min 1 (0.1 + autopilot_pout env s)) ∧
    throttle_of_pout p = shifted_clamp p ∧
    throttle_of_pout (-BIG_delta K) = 0 ∧
    BIG_delta K + -BIG_delta K = 0 ∧
    throttle_of_pout (1 - BIG_delta K) = 1 ∧
    BIG_delta K + (1 - BIG_delta K) = 1 := by
  have hd0 : (0 : K) < BIG_delta K := BIG_delta_pos
  have hd1 : BIG_delta K < 1 := BIG_delta_lt_one
  refine ⟨throttle_of_pout_eq_shifted_clamp p, throttle_of_pout_eq_shifted_clamp _,
    throttle_of_pout_eq_shifted_clamp p, ?_, by ring, ?_, by ring⟩
  · unfold throttle_of_pout
    rw [if_neg (lt_irrefl _), if_pos (by linarith)]
    ring
  · unfold throttle_of_pout
    rw [if_neg (by linarith), if_neg (lt_irrefl _)]

/-- The three-way test on `pout` is non-decreasing. -/
theorem throttle_of_pout_mono {p q : K} (h : p ≤ q) :
    throttle_of_pout p ≤ throttle_of_pout q := by
  rw [throttle_of_pout_eq_shifted_clamp, throttle_of_pout_eq_shifted_clamp]
  unfold shifted_clamp
  exact max_le_max (le_refl 0) (min_le_min (le_refl 1) (by linarith))

/-- C18: for one position and two velocities `v1`, `v2` whose outward radial
speeds satisfy `v1 . unit(position) <= v2 . unit(position)`, the throttle that
`autopilot` writes for `v1` is at least the one it writes for `v2`; the map
from the raw command to the throttle is non-decreasing. -/
theorem throttle_monotone (env : Env K) (s : State K) (v1 v2 : vector3d K)
    (h : v1.dot (s.position.norm env.sqrt) ≤ v2.dot (s.position.norm env.sqrt)) :
    (autopilot env { s with velocity := v2 }).throttle ≤
      (autopilot env { s with velocity := v1 }).throttle ∧
    autopilot_pout env { s with velocity := v2 } ≤
      autopilot_pout env { s with velocity := v1 } ∧
    (∀ p q : K, p ≤ q → throttle_of_pout p ≤ throttle_of_pout q) := by
  have hp : autopilot_pout env { s with velocity := v2 } ≤
      autopilot_pout env { s with velocity := v1 } := by
    simp only [autopilot_pout, autopilot_error, autopilot_h, Kp, one_mul]
    linarith
  exact ⟨throttle_of_pout_mono hp, hp, fun p q hpq => throttle_of_pout_mono hpq⟩

/-- Witness for C18: on the surface the descent at 1.5 has the throttle 1 and
the descent at 0.3 the throttle 0. -/
theorem throttle_monotone_witness :
    (⟨0, 1.5, 0⟩ : vector3d ℚ).dot ((surfaceState ⟨0, 0, 0⟩ 0).position.norm sampleEnv.sqrt)
      ≤ (⟨0, 0.3, 0⟩ : vector3d ℚ).dot
        ((surfaceState ⟨0, 0, 0⟩ 0).position.norm sampleEnv.sqrt) ∧
    (autopilot sampleEnv { surfaceState ⟨0, 0, 0⟩ 0 with velocity := ⟨0, 0.3, 0⟩ }).throttle ≤
      (autopilot sampleEnv { surfaceState ⟨0, 0, 0⟩ 0 with velocity := ⟨0, 1.5, 0⟩ }).throttle :=
  have h : (⟨0, 1.5, 0⟩ : vector3d ℚ).dot
      ((surfaceState ⟨0, 0, 0⟩ 0).position.norm sampleEnv.sqrt)
      ≤ (⟨0, 0.3, 0⟩ : vector3d ℚ).dot
        ((surfaceState ⟨0, 0, 0⟩ 0).position.norm sampleEnv.sqrt) := by
    norm_num [surfaceState, sampleEnv, vector3d.dot, vector3d.norm, vector3d.abs,
      vector3d.abs2, sampleSqrt, sampleRoots, List.find?]
  ⟨h, (throttle_monotone sampleEnv (surfaceState ⟨0, 0, 0⟩ 0) ⟨0, 1.5, 0⟩ ⟨0, 0.3, 0⟩ h).1⟩

end ThrottleLaw

/-! ## The Euler scheme and the first steps of the Verlet scheme -/

section StabilizationMemory

/-- The attitude stabilisation neither reads nor writes `previous_position`. -/
theorem apply_stabilization_set_previous_position {K : Type} (env : Env K) (u : State K)
    (pp : vector3d K) :
    apply_stabilization env { u with previous_position := pp } =
      { apply_stabilization env u with previous_position := pp } := by
  unfold apply_stabilization
  by_cases hb : u.stabilized_attitude = true
  · rw [if_pos hb, if_pos (show
      ({ u with previous_position := pp } : State K).stabilized_attitude = true from hb)]
  · rw [if_neg hb, if_neg (show
      ¬ ({ u with previous_position := pp } : State K).stabilized_attitude = true from hb)]

end StabilizationMemory

section Schemes

variable {K : Type} [LinearOrderedField K]

theorem integrate_euler (s : State K) (a : vector3d K) :
    integrate 0 s a = euler_step s a := by
  simp [integrate, branch_taken]

/-- The acceleration does not read `previous_position`. -/
theorem acceleration_set_previous_position (env : Env K) (u : State K) (pp : vector3d K) :
    acceleration env { u with previous_position := pp } = acceleration env u := rfl

/-- The Euler update neither reads nor writes `previous_position`. -/
theorem euler_step_set_previous_position (u : State K) (a pp : vector3d K) :
    euler_step { u with previous_position := pp } a =
      { euler_step u a with previous_position := pp } := rfl

/-- The autopilot neither reads nor writes `previous_position`. -/
theorem apply_autopilot_set_previous_position (env : Env K) (u : State K)
    (pp : vector3d K) :
    apply_autopilot env { u with previous_position := pp } =
      { apply_autopilot env u with previous_position := pp } := by
  unfold apply_autopilot
  by_cases hb : u.autopilot_enabled = true
  · rw [if_pos hb, if_pos (show ({ u with previous_position := pp } : State K).autopilot_enabled
      = true from hb)]
    rfl
  · rw [if_neg hb, if_neg (show ¬ ({ u with previous_position := pp } : State K).autopilot_enabled
      = true from hb)]

/-- The bootstrap step followed by one steady step: position and velocity. -/
theorem verlet_after_bootstrap (s : State K) (a0 a1 : vector3d K) (t1 : K)
    (hdt : s.delta_t ≠ 0) :
    (verlet_step { bootstrap_step s a0 with simulation_time := t1 } a1).velocity =
      s.velocity + a1.scale s.delta_t ∧
    (verlet_step { bootstrap_step s a0 with simulation_time := t1 } a1).position =
      s.position + s.velocity.scale (2 * s.delta_t) + a1.scale (s.delta_t ^ 2) := by
  constructor
  · ext <;> simp [verlet_step, verlet_new_position, bootstrap_step] <;> field_simp <;> ring
  · ext <;> simp [verlet_step, verlet_new_position, bootstrap_step] <;> ring

/-- C15: on the first tick (`simulation_time == 0`) the Verlet scheme leaves
the position and the velocity that the Euler scheme (`INTERGRATION_METHOD == 0`)
leaves from the same state and acceleration; the Euler scheme neither writes
nor reads `previous_position`. -/
theorem first_tick_is_euler (env : Env K) (s : State K) (a : vector3d K)
    (ht : s.simulation_time = 0) :
    (integrate 1 s a).position = (integrate 0 s a).position ∧
    (integrate 1 s a).velocity = (integrate 0 s a).velocity ∧
    (integrate 0 s a).position = s.position + s.velocity.scale s.delta_t ∧
    (integrate 0 s a).velocity = s.velocity + a.scale s.delta_t ∧
    (numerical_dynamics_with 1 env s).position = (numerical_dynamics_with 0 env s).position ∧
    (numerical_dynamics_with 1 env s).velocity = (numerical_dynamics_with 0 env s).velocity ∧
    (∀ u : State K,
      (numerical_dynamics_with 0 env u).previous_position = u.previous_position) ∧
    (∀ (u : State K) (pp : vector3d K),
      numerical_dynamics_with 0 env { u with previous_position := pp } =
        { numerical_dynamics_with 0 env u with previous_position := pp }) := by
  have h1 : ∀ b : vector3d K, integrate 1 s b = bootstrap_step s b :=
    fun b => integrate_of_time_eq_zero s b ht
  refine ⟨?_, ?_, ?_, ?_, ?_, ?_, ?_, ?_⟩
  · rw [h1, integrate_euler]; rfl
  · rw [h1, integrate_euler]; rfl
  · rw [integrate_euler]; rfl
  · rw [integrate_euler]; rfl
  · rw [numerical_dynamics_with_position, numerical_dynamics_with_position, h1,
      integrate_euler]
    rfl
  · rw [numerical_dynamics_with_velocity, numerical_dynamics_with_velocity, h1,
      integrate_euler]
    rfl
  · intro u
    rw [numerical_dynamics_with_previous_position, integrate_euler]
    rfl
  · intro u pp
    unfold numerical_dynamics_with
    rw [integrate_euler, integrate_euler, acceleration_set_previous_position,
      euler_step_set_previous_position, apply_autopilot_set_previous_position,
      apply_stabilization_set_previous_position]

/-- Witness for C15: the first step of a sample state under the two schemes. -/
theorem first_tick_is_euler_witness :
    (surfaceState ⟨0, 0.3, 0⟩ 0).simulation_time = 0 ∧
    (numerical_dynamics_with 1 sampleEnv (surfaceState ⟨0, 0.3, 0⟩ 0)).position =
      (numerical_dynamics_with 0 sampleEnv (surfaceState ⟨0, 0.3, 0⟩ 0)).position ∧
    (numerical_dynamics_with 1 sampleEnv (surfaceState ⟨0, 0.3, 0⟩ 0)).velocity =
      (numerical_dynamics_with 0 sampleEnv (surfaceState ⟨0, 0.3, 0⟩ 0)).velocity :=
  have h := first_tick_is_euler sampleEnv (surfaceState ⟨0, 0.3, 0⟩ 0) 0 rfl
  ⟨rfl, h.2.2.2.2.1, h.2.2.2.2.2.1⟩

/-- In exact arithmetic the Bootstrap step with the acceleration `a0` followed
by one Steady-state step with the acceleration `a1` leaves the velocity
`v0 + a1*delta_t` and the position `x0 + 2*delta_t*v0 + a1*delta_t^2`. -/
theorem bootstrap_then_steady_exact (s : State K) (a0 a1 : vector3d K) (t1 : K)
    (ht0 : s.simulation_time = 0) (ht1 : t1 ≠ 0) (hdt : s.delta_t ≠ 0) :
    (integrate INTERGRATION_METHOD
        { integrate INTERGRATION_METHOD s a0 with simulation_time := t1 } a1).velocity =
      s.velocity + a1.scale s.delta_t ∧
    (integrate INTERGRATION_METHOD
        { integrate INTERGRATION_METHOD s a0 with simulation_time := t1 } a1).position =
      s.position + s.velocity.scale (2 * s.delta_t) + a1.scale (s.delta_t ^ 2) ∧
    (integrate INTERGRATION_METHOD s a0).velocity = s.velocity + a0.scale s.delta_t ∧
    (∀ b0 : vector3d K,
      (integrate INTERGRATION_METHOD
          { integrate INTERGRATION_METHOD s b0 with simulation_time := t1 } a1).velocity =
        (integrate INTERGRATION_METHOD
          { integrate INTERGRATION_METHOD s a0 with simulation_time := t1 } a1).velocity ∧
      (integrate INTERGRATION_METHOD
          { integrate INTERGRATION_METHOD s b0 with simulation_time := t1 } a1).position =
        (integrate INTERGRATION_METHOD
          { integrate INTERGRATION_METHOD s a0 with simulation_time := t1 } a1).position) := by
  have key : ∀ b0 : vector3d K,
      integrate INTERGRATION_METHOD
        { integrate INTERGRATION_METHOD s b0 with simulation_time := t1 } a1 =
      verlet_step { bootstrap_step s b0 with simulation_time := t1 } a1 := by
    intro b0
    rw [integrate_of_time_eq_zero s b0 ht0]
    exact integrate_of_time_ne_zero { bootstrap_step s b0 with simulation_time := t1 } a1 ht1
  have hv := fun b0 => (verlet_after_bootstrap s b0 a1 t1 hdt).1
  have hx := fun b0 => (verlet_after_bootstrap s b0 a1 t1 hdt).2
  refine ⟨?_, ?_, ?_, ?_⟩
  · rw [key, hv]
  · rw [key, hx]
  · rw [integrate_of_time_eq_zero s a0 ht0]; rfl
  · intro b0
    rw [key b0, key a0, hv b0, hv a0, hx b0, hx a0]
    exact ⟨rfl, rfl⟩

/-- The Steady-state update leaves the velocity equal to the displacement of
the step divided by the time step, whatever the state before it. -/
theorem verlet_step_velocity (u : State K) (a : vector3d K) :
    (verlet_step u a).velocity =
      ((verlet_step u a).position - (verlet_step u a).previous_position).sdiv
        (verlet_step u a).delta_t := rfl

/-- In exact arithmetic a Steady-state step from a state with
`velocity = (position - previous_position)/delta_t` is a semi-implicit Euler
step, and the relation holds again after the step. -/
theorem steady_step_exact (s : State K) (a : vector3d K)
    (ht : s.simulation_time ≠ 0) (hdt : s.delta_t ≠ 0)
    (hinv : s.velocity = (s.position - s.previous_position).sdiv s.delta_t) :
    (integrate INTERGRATION_METHOD s a).velocity = s.velocity + a.scale s.delta_t ∧
    (integrate INTERGRATION_METHOD s a).position =
      s.position + (integrate INTERGRATION_METHOD s a).velocity.scale s.delta_t ∧
    (integrate INTERGRATION_METHOD s a).velocity =
      ((integrate INTERGRATION_METHOD s a).position
        - (integrate INTERGRATION_METHOD s a).previous_position).sdiv
        (integrate INTERGRATION_METHOD s a).delta_t ∧
    (∀ u : State K, u.simulation_time ≠ 0 →
      (integrate INTERGRATION_METHOD u a).velocity =
        ((integrate INTERGRATION_METHOD u a).position
          - (integrate INTERGRATION_METHOD u a).previous_position).sdiv
          (integrate INTERGRATION_METHOD u a).delta_t) := by
  have hall : ∀ u : State K, u.simulation_time ≠ 0 →
      (integrate INTERGRATION_METHOD u a).velocity =
        ((integrate INTERGRATION_METHOD u a).position
          - (integrate INTERGRATION_METHOD u a).previous_position).sdiv
          (integrate INTERGRATION_METHOD u a).delta_t := by
    intro u hu
    rw [integrate_of_time_ne_zero u a hu]
    exact verlet_step_velocity u a
  have hx := congrArg vector3d.x hinv
  have hy := congrArg vector3d.y hinv
  have hz := congrArg vector3d.z hinv
  simp only [vector3d.sdiv_x, vector3d.sdiv_y, vector3d.sdiv_z, vector3d.sub_x,
    vector3d.sub_y, vector3d.sub_z] at hx hy hz
  have hv : (verlet_step s a).velocity = s.velocity + a.scale s.delta_t := by
    ext
    · simp only [verlet_step, verlet_new_position, vector3d.sdiv_x, vector3d.sub_x,
        vector3d.add_x, vector3d.scale_x, hx]
      field_simp
      ring
    · simp only [verlet_step, verlet_new_position, vector3d.sdiv_y, vector3d.sub_y,
        vector3d.add_y, vector3d.scale_y, hy]
      field_simp
      ring
    · simp only [verlet_step, verlet_new_position, vector3d.sdiv_z, vector3d.sub_z,
        vector3d.add_z, vector3d.scale_z, hz]
      field_simp
      ring
  have hp : (verlet_step s a).position =
      s.position + (verlet_step s a).velocity.scale s.delta_t := by
    ext <;> simp [verlet_step, verlet_new_position] <;> field_simp
  refine ⟨?_, ?_, hall s ht, hall⟩
  · rw [integrate_of_time_ne_zero s a ht]
    exact hv
  · rw [integrate_of_time_ne_zero s a ht]
    exact hp

end Schemes

/-! ## The two first steps in `binary64` -/

section Rounding

/-- A rational within one half of the integer `m` is rounded to `m`. -/
theorem round_half_even_eq_of_near (y : ℚ) (m : Int) (h1 : -(1 / 2) < y - m)
    (h2 : y - m < 1 / 2) : round_half_even y = m := by
  unfold round_half_even
  have hf : ⌊y + 1 / 2⌋ = m := by
    rw [Int.floor_eq_iff]
    constructor <;> linarith
  have hne : Int.fract y ≠ 1 / 2 := by
    intro hfr
    have hy : y = ⌊y⌋ + 1 / 2 := by
      have hsum := Int.floor_add_fract y
      rw [hfr] at hsum
      exact hsum.symm
    have hle := Int.floor_le y
    have hlt := Int.lt_floor_add_one y
    have hlt1 : ((⌊y⌋ - m : Int) : ℚ) < 0 + 1 := by
      push_cast; linarith
    have hgt1 : (-1 : ℚ) < ((⌊y⌋ - m : Int) : ℚ) := by
      push_cast; linarith
    have hz1 : ⌊y⌋ - m < 1 := by exact_mod_cast hlt1
    have hz2 : -1 < ⌊y⌋ - m := by exact_mod_cast hgt1
    have hz : ⌊y⌋ = m := by omega
    rw [hz] at hy
    rw [hy] at h2
    linarith
  rw [if_neg hne, hf]

/-- The rounding of `x` to a `double`, from the binade of `x` and an integer
significand within one half of the scaled `x`. -/
theorem round64_eq_of_near (x : ℚ) (m e : Int)
    (hrange : ((2 : ℚ) ^ (e + 52) ≤ x ∧ x < (2 : ℚ) ^ (e + 53)) ∨
      ((2 : ℚ) ^ (e + 52) ≤ -x ∧ -x < (2 : ℚ) ^ (e + 53)))
    (h1 : -(1 / 2) < x / 2 ^ e - m) (h2 : x / 2 ^ e - m < 1 / 2) :
    round64 x = m * 2 ^ e := by
  have hp52 : (0 : ℚ) < (2 : ℚ) ^ (e + 52) := zpow_pos (by norm_num) _
  have habs : (2 : ℚ) ^ (e + 52) ≤ |x| ∧ |x| < (2 : ℚ) ^ (e + 53) := by
    rcases hrange with h | h
    · rw [abs_of_pos (lt_of_lt_of_le hp52 h.1)]; exact h
    · have hneg : x < 0 := by linarith [lt_of_lt_of_le hp52 h.1]
      rw [abs_of_neg hneg]; exact h
  have hpos : (0 : ℚ) < |x| := lt_of_lt_of_le hp52 habs.1
  have hx : x ≠ 0 := abs_pos.mp hpos
  have hlog : Int.log 2 |x| = e + 52 := by
    apply le_antisymm
    · have hlt := (Int.lt_zpow_iff_log_lt (b := 2) (by norm_num) hpos (x := e + 53)).mp
        (by exact_mod_cast habs.2)
      omega
    · exact (Int.zpow_le_iff_le_log (b := 2) (by norm_num) hpos).mp
        (by exact_mod_cast habs.1)
  unfold round64
  rw [if_neg hx, hlog]
  have he : e + 52 - 52 = e := by ring
  rw [he, round_half_even_eq_of_near _ m h1 h2]

theorem round64_zero : round64 0 = 0 := if_pos rfl

theorem binary64_mul_zero_left (y : ℚ) : binary64.mul 0 y = 0 := by
  show round64 (0 * y) = 0
  rw [zero_mul, round64_zero]

theorem binary64_add_zero_zero : binary64.add 0 0 = 0 := by
  show round64 (0 + 0) = 0
  rw [add_zero, round64_zero]

theorem binary64_sub_zero_zero : binary64.sub 0 0 = 0 := by
  show round64 (0 - 0) = 0
  rw [sub_zero, round64_zero]

theorem binary64_div_zero_left (y : ℚ) : binary64.div 0 y = 0 := by
  show round64 (0 / y) = 0
  rw [zero_div, round64_zero]

theorem double_op_1 :
    binary64.mul double_0_3 double_0_1 = (1080863910568919 / 36028797018963968) := by
  show round64 (double_0_3 * double_0_1) = (1080863910568919 / 36028797018963968)
  rw [round64_eq_of_near (double_0_3 * double_0_1) 8646911284551352 (-58)
    (Or.inl ⟨by norm_num [double_0_1, double_0_3, double_m3386000_03], by norm_num [double_0_1, double_0_3, double_m3386000_03]⟩)
    (by norm_num [double_0_1, double_0_3, double_m3386000_03]) (by norm_num [double_0_1, double_0_3, double_m3386000_03])]
  norm_num

theorem double_op_2 :
    binary64.add (-3386000) (1080863910568919 / 36028797018963968) = (-7271379567703491 / 2147483648) := by
  show round64 ((-3386000) + (1080863910568919 / 36028797018963968)) = (-7271379567703491 / 2147483648)
  rw [round64_eq_of_near ((-3386000) + (1080863910568919 / 36028797018963968)) (-7271379567703491) (-31)
    (Or.inr ⟨by norm_num [double_0_1, double_0_3, double_m3386000_03], by norm_num [double_0_1, double_0_3, double_m3386000_03]⟩)
    (by norm_num [double_0_1, double_0_3, double_m3386000_03]) (by norm_num [double_0_1, double_0_3, double_m3386000_03])]
  norm_num

theorem double_op_3 :
    binary64.mul (-7271379567703491 / 2147483648) 2 = (-7271379567703491 / 1073741824) := by
  show round64 ((-7271379567703491 / 2147483648) * 2) = (-7271379567703491 / 1073741824)
  rw [round64_eq_of_near ((-7271379567703491 / 2147483648) * 2) (-7271379567703491) (-30)
    (Or.inr ⟨by norm_num [double_0_1, double_0_3, double_m3386000_03], by norm_num [double_0_1, double_0_3, double_m3386000_03]⟩)
    (by norm_num [double_0_1, double_0_3, double_m3386000_03]) (by norm_num [double_0_1, double_0_3, double_m3386000_03])]
  norm_num

theorem double_op_4 :
    binary64.sub (-7271379567703491 / 1073741824) (-3386000) = (-3635689751639491 / 1073741824) := by
  show round64 ((-7271379567703491 / 1073741824) - (-3386000)) = (-3635689751639491 / 1073741824)
  rw [round64_eq_of_near ((-7271379567703491 / 1073741824) - (-3386000)) (-7271379503278982) (-31)
    (Or.inr ⟨by norm_num [double_0_1, double_0_3, double_m3386000_03], by norm_num [double_0_1, double_0_3, double_m3386000_03]⟩)
    (by norm_num [double_0_1, double_0_3, double_m3386000_03]) (by norm_num [double_0_1, double_0_3, double_m3386000_03])]
  norm_num

theorem double_op_5 :
    binary64.mul 2 double_0_1 = (3602879701896397 / 18014398509481984) := by
  show round64 (2 * double_0_1) = (3602879701896397 / 18014398509481984)
  rw [round64_eq_of_near (2 * double_0_1) 7205759403792794 (-55)
    (Or.inl ⟨by norm_num [double_0_1, double_0_3, double_m3386000_03], by norm_num [double_0_1, double_0_3, double_m3386000_03]⟩)
    (by norm_num [double_0_1, double_0_3, double_m3386000_03]) (by norm_num [double_0_1, double_0_3, double_m3386000_03])]
  norm_num

theorem double_op_6 :
    binary64.mul (3602879701896397 / 18014398509481984) double_0_1 = (1441151880758559 / 72057594037927936) := by
  show round64 ((3602879701896397 / 18014398509481984) * double_0_1) = (1441151880758559 / 72057594037927936)
  rw [round64_eq_of_near ((3602879701896397 / 18014398509481984) * double_0_1) 5764607523034236 (-58)
    (Or.inl ⟨by norm_num [double_0_1, double_0_3, double_m3386000_03], by norm_num [double_0_1, double_0_3, double_m3386000_03]⟩)
    (by norm_num [double_0_1, double_0_3, double_m3386000_03]) (by norm_num [double_0_1, double_0_3, double_m3386000_03])]
  norm_num

theorem double_op_7 :
    binary64.add (-3635689751639491 / 1073741824) (1441151880758559 / 72057594037927936) = (-7271379460329309 / 2147483648) := by
  show round64 ((-3635689751639491 / 1073741824) + (1441151880758559 / 72057594037927936)) = (-7271379460329309 / 2147483648)
  rw [round64_eq_of_near ((-3635689751639491 / 1073741824) + (1441151880758559 / 72057594037927936)) (-7271379460329309) (-31)
    (Or.inr ⟨by norm_num [double_0_1, double_0_3, double_m3386000_03], by norm_num [double_0_1, double_0_3, double_m3386000_03]⟩)
    (by norm_num [double_0_1, double_0_3, double_m3386000_03]) (by norm_num [double_0_1, double_0_3, double_m3386000_03])]
  norm_num

theorem double_op_8 :
    binary64.sub (-7271379460329309 / 2147483648) (-7271379567703491 / 2147483648) = (53687091 / 1073741824) := by
  show round64 ((-7271379460329309 / 2147483648) - (-7271379567703491 / 2147483648)) = (53687091 / 1073741824)
  rw [round64_eq_of_near ((-7271379460329309 / 2147483648) - (-7271379567703491 / 2147483648)) 7205759376949248 (-57)
    (Or.inl ⟨by norm_num [double_0_1, double_0_3, double_m3386000_03], by norm_num [double_0_1, double_0_3, double_m3386000_03]⟩)
    (by norm_num [double_0_1, double_0_3, double_m3386000_03]) (by norm_num [double_0_1, double_0_3, double_m3386000_03])]
  norm_num

theorem double_op_9 :
    binary64.div (53687091 / 1073741824) double_0_1 = (268435455 / 536870912) := by
  show round64 ((53687091 / 1073741824) / double_0_1) = (268435455 / 536870912)
  rw [round64_eq_of_near ((53687091 / 1073741824) / double_0_1) 9007199221186560 (-54)
    (Or.inl ⟨by norm_num [double_0_1, double_0_3, double_m3386000_03], by norm_num [double_0_1, double_0_3, double_m3386000_03]⟩)
    (by norm_num [double_0_1, double_0_3, double_m3386000_03]) (by norm_num [double_0_1, double_0_3, double_m3386000_03])]
  norm_num

theorem double_op_10 :
    binary64.add double_0_3 (3602879701896397 / 18014398509481984) = (1 / 2) := by
  show round64 (double_0_3 + (3602879701896397 / 18014398509481984)) = (1 / 2)
  rw [round64_eq_of_near (double_0_3 + (3602879701896397 / 18014398509481984)) 4503599627370496 (-53)
    (Or.inl ⟨by norm_num [double_0_1, double_0_3, double_m3386000_03], by norm_num [double_0_1, double_0_3, double_m3386000_03]⟩)
    (by norm_num [double_0_1, double_0_3, double_m3386000_03]) (by norm_num [double_0_1, double_0_3, double_m3386000_03])]
  norm_num

theorem double_op_11 :
    binary64.sub (-3386000) double_m3386000_03 = (64424509 / 2147483648) := by
  show round64 ((-3386000) - double_m3386000_03) = (64424509 / 2147483648)
  rw [round64_eq_of_near ((-3386000) - double_m3386000_03) 8646911225495552 (-58)
    (Or.inl ⟨by norm_num [double_0_1, double_0_3, double_m3386000_03], by norm_num [double_0_1, double_0_3, double_m3386000_03]⟩)
    (by norm_num [double_0_1, double_0_3, double_m3386000_03]) (by norm_num [double_0_1, double_0_3, double_m3386000_03])]
  norm_num

theorem double_op_12 :
    binary64.div (64424509 / 2147483648) double_0_1 = (322122545 / 1073741824) := by
  show round64 ((64424509 / 2147483648) / double_0_1) = (322122545 / 1073741824)
  rw [round64_eq_of_near ((64424509 / 2147483648) / double_0_1) 5404319515934720 (-54)
    (Or.inl ⟨by norm_num [double_0_1, double_0_3, double_m3386000_03], by norm_num [double_0_1, double_0_3, double_m3386000_03]⟩)
    (by norm_num [double_0_1, double_0_3, double_m3386000_03]) (by norm_num [double_0_1, double_0_3, double_m3386000_03])]
  norm_num

theorem double_op_13 :
    binary64.mul (-3386000) 2 = (-6772000) := by
  show round64 ((-3386000) * 2) = (-6772000)
  rw [round64_eq_of_near ((-3386000) * 2) (-7271379632128000) (-30)
    (Or.inr ⟨by norm_num [double_0_1, double_0_3, double_m3386000_03], by norm_num [double_0_1, double_0_3, double_m3386000_03]⟩)
    (by norm_num [double_0_1, double_0_3, double_m3386000_03]) (by norm_num [double_0_1, double_0_3, double_m3386000_03])]
  norm_num

theorem double_op_14 :
    binary64.sub (-6772000) double_m3386000_03 = (-7271379567703491 / 2147483648) := by
  show round64 ((-6772000) - double_m3386000_03) = (-7271379567703491 / 2147483648)
  rw [round64_eq_of_near ((-6772000) - double_m3386000_03) (-7271379567703491) (-31)
    (Or.inr ⟨by norm_num [double_0_1, double_0_3, double_m3386000_03], by norm_num [double_0_1, double_0_3, double_m3386000_03]⟩)
    (by norm_num [double_0_1, double_0_3, double_m3386000_03]) (by norm_num [double_0_1, double_0_3, double_m3386000_03])]
  norm_num

theorem double_op_15 :
    binary64.add (-7271379567703491 / 2147483648) (1441151880758559 / 72057594037927936) = (-3635689762376909 / 1073741824) := by
  show round64 ((-7271379567703491 / 2147483648) + (1441151880758559 / 72057594037927936)) = (-3635689762376909 / 1073741824)
  rw [round64_eq_of_near ((-7271379567703491 / 2147483648) + (1441151880758559 / 72057594037927936)) (-7271379524753818) (-31)
    (Or.inr ⟨by norm_num [double_0_1, double_0_3, double_m3386000_03], by norm_num [double_0_1, double_0_3, double_m3386000_03]⟩)
    (by norm_num [double_0_1, double_0_3, double_m3386000_03]) (by norm_num [double_0_1, double_0_3, double_m3386000_03])]
  norm_num

theorem double_op_16 :
    binary64.sub (-3635689762376909 / 1073741824) (-3386000) = (53687091 / 1073741824) := by
  show round64 ((-3635689762376909 / 1073741824) - (-3386000)) = (53687091 / 1073741824)
  rw [round64_eq_of_near ((-3635689762376909 / 1073741824) - (-3386000)) 7205759376949248 (-57)
    (Or.inl ⟨by norm_num [double_0_1, double_0_3, double_m3386000_03], by norm_num [double_0_1, double_0_3, double_m3386000_03]⟩)
    (by norm_num [double_0_1, double_0_3, double_m3386000_03]) (by norm_num [double_0_1, double_0_3, double_m3386000_03])]
  norm_num

theorem double_op_17 :
    binary64.add (322122545 / 1073741824) (3602879701896397 / 18014398509481984) = (9007199217831117 / 18014398509481984) := by
  show round64 ((322122545 / 1073741824) + (3602879701896397 / 18014398509481984)) = (9007199217831117 / 18014398509481984)
  rw [round64_eq_of_near ((322122545 / 1073741824) + (3602879701896397 / 18014398509481984)) 9007199217831117 (-54)
    (Or.inl ⟨by norm_num [double_0_1, double_0_3, double_m3386000_03], by norm_num [double_0_1, double_0_3, double_m3386000_03]⟩)
    (by norm_num [double_0_1, double_0_3, double_m3386000_03]) (by norm_num [double_0_1, double_0_3, double_m3386000_03])]
  norm_num

/-- The first tick and one Verlet step of the sample state in `binary64`, with
the accelerations 1 and then 2 along `y`. -/
theorem double_two_steps :
    (verlet_integrate_in binary64
      { verlet_integrate_in binary64 (doubleSurfaceState 0) ⟨0, 1, 0⟩
          with simulation_time := double_0_1 } ⟨0, 2, 0⟩).velocity
      = ⟨0, 268435455 / 536870912, 0⟩ ∧
    (verlet_integrate_in binary64
      { verlet_integrate_in binary64 (doubleSurfaceState 0) ⟨0, 1, 0⟩
          with simulation_time := double_0_1 } ⟨0, 2, 0⟩).position
      = ⟨0, -7271379460329309 / 2147483648, 0⟩ := by
  have e1 : verlet_integrate_in binary64 (doubleSurfaceState 0) ⟨0, 1, 0⟩ =
      bootstrap_step_in binary64 (doubleSurfaceState 0) ⟨0, 1, 0⟩ := if_pos rfl
  have hne : double_0_1 ≠ 0 := by norm_num [double_0_1]
  have e2 : ∀ u : State ℚ, verlet_integrate_in binary64
      { u with simulation_time := double_0_1 } ⟨0, 2, 0⟩ =
      verlet_step_in binary64 { u with simulation_time := double_0_1 } ⟨0, 2, 0⟩ :=
    fun u => if_neg hne
  rw [e1, e2]
  constructor
  · ext
    · simp only [verlet_step_in, verlet_new_position_in, bootstrap_step_in,
        doubleSurfaceState, vector3d.add_in, vector3d.sub_in, vector3d.scale_in,
        vector3d.sdiv_in, binary64_mul_zero_left, binary64_add_zero_zero,
        binary64_sub_zero_zero, binary64_div_zero_left]
    · simp only [verlet_step_in, verlet_new_position_in, bootstrap_step_in,
        doubleSurfaceState, vector3d.add_in, vector3d.sub_in, vector3d.scale_in,
        vector3d.sdiv_in]
      rw [double_op_1, double_op_2, double_op_3, double_op_4, double_op_5, double_op_6,
        double_op_7, double_op_8, double_op_9]
    · simp only [verlet_step_in, verlet_new_position_in, bootstrap_step_in,
        doubleSurfaceState, vector3d.add_in, vector3d.sub_in, vector3d.scale_in,
        vector3d.sdiv_in, binary64_mul_zero_left, binary64_add_zero_zero,
        binary64_sub_zero_zero, binary64_div_zero_left]
  · ext
    · simp only [verlet_step_in, verlet_new_position_in, bootstrap_step_in,
        doubleSurfaceState, vector3d.add_in, vector3d.sub_in, vector3d.scale_in,
        vector3d.sdiv_in, binary64_mul_zero_left, binary64_add_zero_zero,
        binary64_sub_zero_zero, binary64_div_zero_left]
    · simp only [verlet_step_in, verlet_new_position_in, bootstrap_step_in,
        doubleSurfaceState, vector3d.add_in, vector3d.sub_in, vector3d.scale_in,
        vector3d.sdiv_in]
      rw [double_op_1, double_op_2, double_op_3, double_op_4, double_op_5, double_op_6,
        double_op_7]
    · simp only [verlet_step_in, verlet_new_position_in, bootstrap_step_in,
        doubleSurfaceState, vector3d.add_in, vector3d.sub_in, vector3d.scale_in,
        vector3d.sdiv_in, binary64_mul_zero_left, binary64_add_zero_zero,
        binary64_sub_zero_zero, binary64_div_zero_left]

/-- One Verlet step of the sample state whose velocity is the `double`
computed as `(position - previous_position)/delta_t`, in `binary64`, with the
acceleration 2 along `y`. -/
theorem double_cruise_step :
    doubleCruiseState.velocity = ⟨0, 322122545 / 1073741824, 0⟩ ∧
    (verlet_integrate_in binary64 doubleCruiseState ⟨0, 2, 0⟩).velocity
      = ⟨0, 268435455 / 536870912, 0⟩ ∧
    doubleCruiseState.velocity.add_in binary64
        ((⟨0, 2, 0⟩ : vector3d ℚ).scale_in binary64 doubleCruiseState.delta_t)
      = ⟨0, 9007199217831117 / 18014398509481984, 0⟩ := by
  have hne : doubleCruiseState.simulation_time ≠ 0 := by
    show double_0_1 ≠ 0
    norm_num [double_0_1]
  have e2 : verlet_integrate_in binary64 doubleCruiseState ⟨0, 2, 0⟩ =
      verlet_step_in binary64 doubleCruiseState ⟨0, 2, 0⟩ := if_neg hne
  rw [e2]
  refine ⟨?_, ?_, ?_⟩
  · ext
    · simp only [doubleCruiseState, doubleSurfaceState, vector3d.sub_in, vector3d.sdiv_in,
        binary64_sub_zero_zero, binary64_div_zero_left]
    · simp only [doubleCruiseState, doubleSurfaceState, vector3d.sub_in, vector3d.sdiv_in]
      rw [double_op_11, double_op_12]
    · simp only [doubleCruiseState, doubleSurfaceState, vector3d.sub_in, vector3d.sdiv_in,
        binary64_sub_zero_zero, binary64_div_zero_left]
  · ext
    · simp only [verlet_step_in, verlet_new_position_in, doubleCruiseState,
        doubleSurfaceState, vector3d.add_in, vector3d.sub_in, vector3d.scale_in,
        vector3d.sdiv_in, binary64_mul_zero_left, binary64_add_zero_zero,
        binary64_sub_zero_zero, binary64_div_zero_left]
    · simp only [verlet_step_in, verlet_new_position_in, doubleCruiseState,
        doubleSurfaceState, vector3d.add_in, vector3d.sub_in, vector3d.scale_in,
        vector3d.sdiv_in]
      rw [double_op_13, double_op_14, double_op_5, double_op_6, double_op_15,
        double_op_16, double_op_9]
    · simp only [verlet_step_in, verlet_new_position_in, doubleCruiseState,
        doubleSurfaceState, vector3d.add_in, vector3d.sub_in, vector3d.scale_in,
        vector3d.sdiv_in, binary64_mul_zero_left, binary64_add_zero_zero,
        binary64_sub_zero_zero, binary64_div_zero_left]
  · ext
    · simp only [doubleCruiseState, doubleSurfaceState, vector3d.add_in, vector3d.sub_in,
        vector3d.scale_in, vector3d.sdiv_in, binary64_mul_zero_left,
        binary64_add_zero_zero, binary64_sub_zero_zero, binary64_div_zero_left]
    · simp only [doubleCruiseState, doubleSurfaceState, vector3d.add_in, vector3d.sub_in,
        vector3d.scale_in, vector3d.sdiv_in]
      rw [double_op_11, double_op_12, double_op_5, double_op_17]
    · simp only [doubleCruiseState, doubleSurfaceState, vector3d.add_in, vector3d.sub_in,
        vector3d.scale_in, vector3d.sdiv_in, binary64_mul_zero_left,
        binary64_add_zero_zero, binary64_sub_zero_zero, binary64_div_zero_left]

/-- In `binary64` the velocity 0.3 plus the acceleration 2 times the time step
0.1 is one half. -/
theorem double_euler_velocity :
    (doubleSurfaceState 0).velocity.add_in binary64
        ((⟨0, 2, 0⟩ : vector3d ℚ).scale_in binary64 (doubleSurfaceState 0).delta_t)
      = ⟨0, 1 / 2, 0⟩ := by
  ext
  · simp only [doubleSurfaceState, vector3d.add_in, vector3d.scale_in,
      binary64_mul_zero_left, binary64_add_zero_zero]
  · simp only [doubleSurfaceState, vector3d.add_in, vector3d.scale_in]
    rw [double_op_5, double_op_10]
  · simp only [doubleSurfaceState, vector3d.add_in, vector3d.scale_in,
      binary64_mul_zero_left, binary64_add_zero_zero]

end Rounding

/-! ## The first steps of the Verlet scheme, whatever the arithmetic -/

section RoundedSteps

variable {K : Type} [LinearOrderedField K]

/-- Over the exact operations of the field the integration in an arithmetic is
the Verlet-mode integration of `numerical_dynamics`. -/
theorem verlet_integrate_in_exact (u : State K) (b : vector3d K) :
    verlet_integrate_in exactArith u b = integrate INTERGRATION_METHOD u b := by
  unfold verlet_integrate_in
  by_cases h : u.simulation_time = 0
  · rw [if_pos h, integrate_of_time_eq_zero u b h]; rfl
  · rw [if_neg h, integrate_of_time_ne_zero u b h]; rfl

/-- Counterexample to C16 as stated: in the arithmetic of the `double`, from the
position -3386000 and the velocity 0.3 with the time step 0.1, the Bootstrap
step followed by one Steady-state step with the acceleration 2 leaves the
velocity `268435455/536870912 = 0.49999999813735485`, while `v0 + a1*delta_t`
is `0.5` in `binary64` and a third value in exact arithmetic. -/
theorem double_velocity_not_euler :
    (verlet_integrate_in binary64
      { verlet_integrate_in binary64 (doubleSurfaceState 0) ⟨0, 1, 0⟩
          with simulation_time := double_0_1 } ⟨0, 2, 0⟩).velocity
      = ⟨0, 268435455 / 536870912, 0⟩ ∧
    (verlet_integrate_in binary64
      { verlet_integrate_in binary64 (doubleSurfaceState 0) ⟨0, 1, 0⟩
          with simulation_time := double_0_1 } ⟨0, 2, 0⟩).position
      = ⟨0, -7271379460329309 / 2147483648, 0⟩ ∧
    (doubleSurfaceState 0).velocity.add_in binary64
        ((⟨0, 2, 0⟩ : vector3d ℚ).scale_in binary64 (doubleSurfaceState 0).delta_t)
      = ⟨0, 1 / 2, 0⟩ ∧
    (verlet_integrate_in binary64
      { verlet_integrate_in binary64 (doubleSurfaceState 0) ⟨0, 1, 0⟩
          with simulation_time := double_0_1 } ⟨0, 2, 0⟩).velocity
      ≠ (doubleSurfaceState 0).velocity.add_in binary64
        ((⟨0, 2, 0⟩ : vector3d ℚ).scale_in binary64 (doubleSurfaceState 0).delta_t) ∧
    (verlet_integrate_in binary64
      { verlet_integrate_in binary64 (doubleSurfaceState 0) ⟨0, 1, 0⟩
          with simulation_time := double_0_1 } ⟨0, 2, 0⟩).velocity
      ≠ (doubleSurfaceState 0).velocity
        + (⟨0, 2, 0⟩ : vector3d ℚ).scale (doubleSurfaceState 0).delta_t := by
  rw [double_two_steps.1, double_two_steps.2, double_euler_velocity]
  refine ⟨rfl, rfl, rfl, ?_, ?_⟩
  · intro h
    have hy := congrArg vector3d.y h
    norm_num at hy
  · intro h
    have hy := congrArg vector3d.y h
    norm_num [doubleSurfaceState, double_0_1, double_0_3] at hy

/-- C16 (amended): whatever the arithmetic, the Bootstrap step with the
acceleration `a0` followed by one Steady-state step with the acceleration `a1`
leaves the position `(x0 + delta_t*v0)*2 - x0 + a1*delta_t*delta_t` and the
velocity `(position - (x0 + delta_t*v0))/delta_t`, computed in this order of
operations, and neither depends on `a0`; in exact arithmetic (`delta_t != 0`)
they are `x0 + 2*delta_t*v0 + a1*delta_t^2` and `v0 + a1*delta_t`. -/
theorem bootstrap_acceleration_discarded (A : Arith K) (s : State K)
    (a0 a1 : vector3d K) (t1 : K)
    (ht0 : s.simulation_time = 0) (ht1 : t1 ≠ 0) (hdt : s.delta_t ≠ 0) :
    (verlet_integrate_in A
        { verlet_integrate_in A s a0 with simulation_time := t1 } a1).position =
      (((s.position.add_in A (s.velocity.scale_in A s.delta_t)).scale_in A 2).sub_in A
          s.position).add_in A ((a1.scale_in A s.delta_t).scale_in A s.delta_t) ∧
    (verlet_integrate_in A
        { verlet_integrate_in A s a0 with simulation_time := t1 } a1).velocity =
      (((verlet_integrate_in A
          { verlet_integrate_in A s a0 with simulation_time := t1 } a1).position).sub_in A
        (s.position.add_in A (s.velocity.scale_in A s.delta_t))).sdiv_in A s.delta_t ∧
    (∀ b0 : vector3d K,
      (verlet_integrate_in A
          { verlet_integrate_in A s b0 with simulation_time := t1 } a1).velocity =
        (verlet_integrate_in A
          { verlet_integrate_in A s a0 with simulation_time := t1 } a1).velocity ∧
      (verlet_integrate_in A
          { verlet_integrate_in A s b0 with simulation_time := t1 } a1).position =
        (verlet_integrate_in A
          { verlet_integrate_in A s a0 with simulation_time := t1 } a1).position) ∧
    (∀ (u : State K) (b : vector3d K),
      verlet_integrate_in exactArith u b = integrate INTERGRATION_METHOD u b) ∧
    (integrate INTERGRATION_METHOD
        { integrate INTERGRATION_METHOD s a0 with simulation_time := t1 } a1).velocity =
      s.velocity + a1.scale s.delta_t ∧
    (integrate INTERGRATION_METHOD
        { integrate INTERGRATION_METHOD s a0 with simulation_time := t1 } a1).position =
      s.position + s.velocity.scale (2 * s.delta_t) + a1.scale (s.delta_t ^ 2) := by
  have key : ∀ b0 : vector3d K,
      verlet_integrate_in A { verlet_integrate_in A s b0 with simulation_time := t1 } a1 =
      verlet_step_in A { bootstrap_step_in A s b0 with simulation_time := t1 } a1 := by
    intro b0
    have e1 : verlet_integrate_in A s b0 = bootstrap_step_in A s b0 := if_pos ht0
    rw [e1]
    exact if_neg ht1
  have hex := bootstrap_then_steady_exact s a0 a1 t1 ht0 ht1 hdt
  refine ⟨?_, ?_, ?_, verlet_integrate_in_exact, hex.1, hex.2.1⟩
  · rw [key a0]; rfl
  · rw [key a0]; rfl
  · intro b0
    rw [key b0, key a0]
    exact ⟨rfl, rfl⟩

/-- Witness for C16 (amended): in `binary64` the two steps of the sample state
leave the same velocity with the first acceleration 5 as with 1, and in exact
arithmetic they leave `v0 + a1*delta_t`. -/
theorem bootstrap_acceleration_discarded_witness :
    ((doubleSurfaceState 0).simulation_time = 0 ∧ double_0_1 ≠ 0 ∧
      (doubleSurfaceState 0).delta_t ≠ 0) ∧
    (verlet_integrate_in binary64
        { verlet_integrate_in binary64 (doubleSurfaceState 0) ⟨0, 5, 0⟩
            with simulation_time := double_0_1 } ⟨0, 2, 0⟩).velocity =
      (verlet_integrate_in binary64
        { verlet_integrate_in binary64 (doubleSurfaceState 0) ⟨0, 1, 0⟩
            with simulation_time := double_0_1 } ⟨0, 2, 0⟩).velocity ∧
    (integrate INTERGRATION_METHOD
        { integrate INTERGRATION_METHOD (doubleSurfaceState 0) ⟨0, 1, 0⟩
            with simulation_time := double_0_1 } ⟨0, 2, 0⟩).velocity =
      (doubleSurfaceState 0).velocity
        + (⟨0, 2, 0⟩ : vector3d ℚ).scale (doubleSurfaceState 0).delta_t := by
  have ht1 : double_0_1 ≠ 0 := by norm_num [double_0_1]
  have hdt : (doubleSurfaceState 0).delta_t ≠ 0 := ht1
  have h := bootstrap_acceleration_discarded binary64 (doubleSurfaceState 0) ⟨0, 1, 0⟩
    ⟨0, 2, 0⟩ double_0_1 rfl ht1 hdt
  exact ⟨⟨rfl, ht1, hdt⟩, (h.2.2.1 ⟨0, 5, 0⟩).1, h.2.2.2.2.1⟩

/-- Counterexample to C17 as stated: in the arithmetic of the `double` the sample
state satisfies `velocity = (position - previous_position)/delta_t`, and the
Steady-state step with the acceleration 2 leaves the velocity
`0.49999999813735485`, not `velocity + acceleration*delta_t`, which is
`0.49999999795109035`. -/
theorem double_step_not_semi_implicit :
    doubleCruiseState.simulation_time ≠ 0 ∧ doubleCruiseState.delta_t ≠ 0 ∧
    doubleCruiseState.velocity =
      (doubleCruiseState.position.sub_in binary64
        doubleCruiseState.previous_position).sdiv_in binary64 doubleCruiseState.delta_t ∧
    (verlet_integrate_in binary64 doubleCruiseState ⟨0, 2, 0⟩).velocity
      = ⟨0, 268435455 / 536870912, 0⟩ ∧
    doubleCruiseState.velocity.add_in binary64
        ((⟨0, 2, 0⟩ : vector3d ℚ).scale_in binary64 doubleCruiseState.delta_t)
      = ⟨0, 9007199217831117 / 18014398509481984, 0⟩ ∧
    (verlet_integrate_in binary64 doubleCruiseState ⟨0, 2, 0⟩).velocity ≠
      doubleCruiseState.velocity.add_in binary64
        ((⟨0, 2, 0⟩ : vector3d ℚ).scale_in binary64 doubleCruiseState.delta_t) := by
  have hne : double_0_1 ≠ 0 := by norm_num [double_0_1]
  refine ⟨hne, hne, rfl, double_cruise_step.2.1, double_cruise_step.2.2, ?_⟩
  rw [double_cruise_step.2.1, double_cruise_step.2.2]
  intro h
  have hy := congrArg vector3d.y h
  norm_num at hy

/-- C17 (amended): whatever the arithmetic, every Steady-state step leaves
`velocity = (position - previous_position)/delta_t` in the values it has just
written, regardless of the state before it; in exact arithmetic
(`delta_t != 0`) a Steady-state step from a state with that relation is the
semi-implicit Euler step `new_velocity = velocity + acceleration*delta_t`,
`new_position = position + new_velocity*delta_t`. -/
theorem steady_step_semi_implicit (A : Arith K) (s : State K) (a : vector3d K)
    (ht : s.simulation_time ≠ 0) (hdt : s.delta_t ≠ 0)
    (hinv : s.velocity = (s.position - s.previous_position).sdiv s.delta_t) :
    (∀ u : State K, u.simulation_time ≠ 0 →
      (verlet_integrate_in A u a).velocity =
        ((verlet_integrate_in A u a).position.sub_in A
          (verlet_integrate_in A u a).previous_position).sdiv_in A
          (verlet_integrate_in A u a).delta_t) ∧
    (∀ (u : State K) (b : vector3d K),
      verlet_integrate_in exactArith u b = integrate INTERGRATION_METHOD u b) ∧
    (integrate INTERGRATION_METHOD s a).velocity = s.velocity + a.scale s.delta_t ∧
    (integrate INTERGRATION_METHOD s a).position =
      s.position + (integrate INTERGRATION_METHOD s a).velocity.scale s.delta_t ∧
    (integrate INTERGRATION_METHOD s a).velocity =
      ((integrate INTERGRATION_METHOD s a).position
        - (integrate INTERGRATION_METHOD s a).previous_position).sdiv
        (integrate INTERGRATION_METHOD s a).delta_t := by
  have hex := steady_step_exact s a ht hdt hinv
  refine ⟨?_, verlet_integrate_in_exact, hex.1, hex.2.1, hex.2.2.1⟩
  intro u hu
  have e : verlet_integrate_in A u a = verlet_step_in A u a := if_neg hu
  rw [e]
  rfl

/-- Witness for C17 (amended): the sample state whose velocity 0.3 matches its
last displacement, stepped in exact arithmetic with the acceleration 2 along
`y`, gets the velocity 0.5; stepped in `binary64`, the sample `double` state is
left with the relation between velocity and positions. -/
theorem steady_step_semi_implicit_witness :
    (cruiseState.simulation_time ≠ 0 ∧ cruiseState.delta_t ≠ 0 ∧
      cruiseState.velocity =
        (cruiseState.position - cruiseState.previous_position).sdiv cruiseState.delta_t) ∧
    (integrate INTERGRATION_METHOD cruiseState ⟨0, 2, 0⟩).velocity = ⟨0, 0.5, 0⟩ ∧
    (verlet_integrate_in binary64 doubleCruiseState ⟨0, 2, 0⟩).velocity =
      ((verlet_integrate_in binary64 doubleCruiseState ⟨0, 2, 0⟩).position.sub_in binary64
        (verlet_integrate_in binary64 doubleCruiseState ⟨0, 2, 0⟩).previous_position).sdiv_in
        binary64 (verlet_integrate_in binary64 doubleCruiseState ⟨0, 2, 0⟩).delta_t := by
  have ht : cruiseState.simulation_time ≠ 0 := by norm_num [cruiseState, surfaceState]
  have hdt : cruiseState.delta_t ≠ 0 := by norm_num [cruiseState, surfaceState]
  have hinv : cruiseState.velocity =
      (cruiseState.position - cruiseState.previous_position).sdiv cruiseState.delta_t := by
    ext <;> norm_num [cruiseState, surfaceState]
  have h := steady_step_semi_implicit binary64 cruiseState ⟨0, 2, 0⟩ ht hdt hinv
  have hne : doubleCruiseState.simulation_time ≠ 0 := by
    show double_0_1 ≠ 0
    norm_num [double_0_1]
  refine ⟨⟨ht, hdt, hinv⟩, ?_, h.1 doubleCruiseState hne⟩
  rw [h.2.2.1]
  ext <;> norm_num [cruiseState, surfaceState]

end RoundedSteps

end MarsLander
